import Mathlib

/-!
League tables of OpenTTD (`src/league_cmd.cpp`).

A shallow embedding of the five league commands and of `IsValidLink`, together
with the slot pool they allocate from, and the properties the specification
states about them.

The commands read and write process-wide globals (`_current_company`, the two
league pools, the pools of the link targets, the window system).  Here these
globals are the fields of one `GameState` value that every command receives and
returns.
-/

namespace OpenTTD

/-! ## Types declared outside `league_cmd.cpp` -/

/-- Modelled from the spec: the string payload type `EncodedString`
(`strings_type.h` is absent).  The commands only store it and ask whether it is
empty. -/
structure EncodedString where
  string : String
  deriving DecidableEq, Repr

/-- The member `EncodedString::empty()`: no character at all. -/
def EncodedString.empty (e : EncodedString) : Bool :=
  e.string.data.isEmpty

/-- Identifier of a league table (`LeagueTableID`), by its raw value. -/
abbrev LeagueTableID := Nat

/-- Identifier of a league table element (`LeagueTableElementID`), by its raw value. -/
abbrev LeagueTableElementID := Nat

/-- Identifier of a company (`CompanyID`), also the type of `_current_company`. -/
abbrev CompanyID := Nat

/-- The 32 bit target of a link (`LinkTargetID`). -/
abbrev LinkTargetID := Nat

/-- Modelled from the spec: the "Invalid" sentinel of `LeagueTableID`
(`league_type.h` is absent); the maximum of the underlying `uint8_t`. -/
def LeagueTableID.Invalid : LeagueTableID := 0xFF

/-- Modelled from the spec: the "Invalid" sentinel of `LeagueTableElementID`
(`league_type.h` is absent); the maximum of the underlying `uint16_t`, as for
`EngineRenewID` in `autoreplace_base.h`. -/
def LeagueTableElementID.Invalid : LeagueTableElementID := 0xFFFF

/-- Modelled from the spec: the "Invalid" sentinel of `CompanyID`
(`company_type.h` is absent). -/
def CompanyID.Invalid : CompanyID := 0xFF

/-- Modelled from the spec: the privileged "deity" authority `OWNER_DEITY`
(`company_type.h` is absent).  No proof below depends on its value. -/
def OWNER_DEITY : CompanyID := 0x12

/-- Modelled from the spec: the kind tag of a link (`LinkType`, declared in the
absent `league_type.h`).  The six enumerators are the case labels of the switch
in `IsValidLink`; `unrecognised raw` stands for a tag byte that equals none of
them, which a command can receive since the tag arrives as a raw integer. -/
inductive LinkType where
  | LT_NONE
  | LT_TILE
  | LT_INDUSTRY
  | LT_TOWN
  | LT_COMPANY
  | LT_STORY_PAGE
  | unrecognised (raw : Nat)
  deriving DecidableEq, Repr

/-- The aggregate `Link{type, target}` built by the commands. -/
structure Link where
  type : LinkType
  target : LinkTargetID
  deriving DecidableEq, Repr

/-- Modelled from the spec: a league table (`league_base.h` is absent); the
pool item index followed by the three constructor arguments of
`new LeagueTable(title, header, footer)`. -/
structure LeagueTable where
  index : LeagueTableID
  title : EncodedString
  header : EncodedString
  footer : EncodedString
  deriving DecidableEq, Repr

/-- Modelled from the spec: a league table element (`league_base.h` is
absent); the pool item index followed by the six constructor arguments of
`new LeagueTableElement(table, rating, company, text, score, link)`. -/
structure LeagueTableElement where
  index : LeagueTableElementID
  table : LeagueTableID
  rating : Int
  company : CompanyID
  text : EncodedString
  score : EncodedString
  link : Link
  deriving DecidableEq, Repr

/-- Modelled from the spec: the outcome value `CommandCost` (`command_type.h`
is absent): a cost and whether the command succeeded. -/
structure CommandCost where
  cost : Int
  success : Bool
  deriving DecidableEq, Repr

/-- The default constructed `CommandCost()`: success at no cost. -/
def CommandCost.zero : CommandCost := ⟨0, true⟩

/-- The generic failure `CMD_ERROR`. -/
def CMD_ERROR : CommandCost := ⟨0, false⟩

/-- The member `CommandCost::Succeeded()`. -/
def CommandCost.Succeeded (c : CommandCost) : Bool := c.success

/-- The member `CommandCost::Failed()`. -/
def CommandCost.Failed (c : CommandCost) : Bool := !c.success

/-- Modelled from the spec: one flag of the flags bundle (`command_type.h` is
absent).  `Execute` selects Execute mode; `other` stands for every flag the
league commands do not look at. -/
inductive DoCommandFlag where
  | Execute
  | other (bit : Nat)
  deriving DecidableEq, Repr

/-- The flags bundle `DoCommandFlags`, as the list of the flags that are set. -/
structure DoCommandFlags where
  set : List DoCommandFlag
  deriving DecidableEq, Repr

/-- The member `DoCommandFlags::Test(flag)`. -/
def DoCommandFlags.Test (flags : DoCommandFlags) (flag : DoCommandFlag) : Bool :=
  decide (flag ∈ flags.set)

/-- Modelled from the spec: the window class tag handed to the invalidation
sink (`window_type.h` is absent); `league_cmd.cpp` uses only this one. -/
inductive WindowClass where
  | WC_COMPANY_LEAGUE
  deriving DecidableEq, Repr

/-! ## The slot pool -/

/-- Modelled from the spec: the slot pool `Pool<Titem, Tindex, ...>`
(`core/pool_type.hpp` and `core/pool_func.hpp` are absent).  `limit` is the
maximum population taken from the identifier type; `slots` is the storage, a
slot being `none` when free and `some item` when used. -/
structure Pool (α : Type) where
  limit : Nat
  slots : List (Option α)
  deriving DecidableEq, Repr

namespace Pool

variable {α : Type}

/-- Modelled from the spec: `GetIfValid(id)`, the index-checked and
liveness-checked accessor; `none` is the null pointer. -/
def GetIfValid (p : Pool α) (index : Nat) : Option α :=
  p.slots.getD index none

/-- Modelled from the spec: `IsValidID(id)`, the liveness query. -/
def IsValidID (p : Pool α) (index : Nat) : Bool :=
  (p.GetIfValid index).isSome

/-- Modelled from the spec: the count of currently used slots. -/
def items (p : Pool α) : Nat :=
  p.slots.countP Option.isSome

/-- Modelled from the spec: `CanAllocateItem()`, true while one more item
keeps the population within the limit. -/
def CanAllocateItem (p : Pool α) : Bool :=
  decide (p.items + 1 ≤ p.limit)

/-- The position of the first free slot of a storage, its length when every
slot is used. -/
def firstFree : List (Option α) → Nat
  | [] => 0
  | none :: _ => 0
  | some _ :: rest => firstFree rest + 1

/-- Modelled from the spec: `FindFirstFree()`: the lowest free slot, reusing
freed slots before growing the storage. -/
def FindFirstFree (p : Pool α) : Nat :=
  firstFree p.slots

/-- Modelled from the spec: the pool item `operator new` followed by the
constructor: the item is built knowing its own index and placed in the lowest
free slot.  Returns the new pool and the item. -/
def New (p : Pool α) (construct : Nat → α) : Pool α × α :=
  let index := p.FindFirstFree
  let item := construct index
  if index < p.slots.length then
    ({ p with slots := p.slots.set index (some item) }, item)
  else
    ({ p with slots := p.slots ++ [some item] }, item)

/-- Modelled from the spec: `Destroy(id)` (the pool item `operator delete`):
marks the slot free and shifts nothing. -/
def Delete (p : Pool α) (index : Nat) : Pool α :=
  { p with slots := p.slots.set index none }

/-- Writing through the pointer that `GetIfValid` returned: the used slot
`index` now holds `item`. -/
def Store (p : Pool α) (index : Nat) (item : α) : Pool α :=
  { p with slots := p.slots.set index (some item) }

end Pool

/-! ## The state the commands run against -/

/-- The globals `league_cmd.cpp` reads and writes. -/
structure GameState where
  /-- The global `_current_company`, the authority of the running command. -/
  current_company : CompanyID
  /-- The global `_league_table_pool`. -/
  league_table_pool : Pool LeagueTable
  /-- The global `_league_table_element_pool`. -/
  league_table_element_pool : Pool LeagueTableElement
  /-- The map, one entry per tile: whether the tile holds anything but void. -/
  tiles : List Bool
  /-- The industry pool, for liveness only. -/
  industry_pool : Pool Unit
  /-- The town pool, for liveness only. -/
  town_pool : Pool Unit
  /-- The company pool, for liveness only. -/
  company_pool : Pool Unit
  /-- The story page pool, for liveness only. -/
  story_page_pool : Pool Unit
  /-- The invalidation sink: every notification received so far, oldest first. -/
  invalidations : List (WindowClass × Nat)
  deriving DecidableEq, Repr

/-- Modelled from the spec: `IsValidTile(tile)` of the absent `tile_map.h`, the
spatial index check for tile links: the tile is on the map and is not void. -/
def IsValidTile (s : GameState) (tile : Nat) : Bool :=
  s.tiles.getD tile false

/-- Modelled from the spec: the invalidation sink `InvalidateWindowData(cls,
number)` of the absent `window_func.h`, which records one notification. -/
def InvalidateWindowData (s : GameState) (cls : WindowClass) (number : Nat) : GameState :=
  { s with invalidations := s.invalidations ++ [(cls, number)] }

/-! ## `league_cmd.cpp` -/

/-- Checks whether a link is valid, i.e. has a valid target
(`IsValidLink`, lines 34-46). -/
def IsValidLink (s : GameState) (link : Link) : Bool :=
  match link.type with
  | .LT_NONE => decide (link.target = 0)
  | .LT_TILE => IsValidTile s link.target
  | .LT_INDUSTRY => s.industry_pool.IsValidID link.target
  | .LT_TOWN => s.town_pool.IsValidID link.target
  | .LT_COMPANY => s.company_pool.IsValidID link.target
  | .LT_STORY_PAGE => s.story_page_pool.IsValidID link.target
  | .unrecognised _ => false

/-- Create a new league table (`CmdCreateLeagueTable`, lines 56-68). -/
def CmdCreateLeagueTable (s : GameState) (flags : DoCommandFlags)
    (title header footer : EncodedString) : (CommandCost × LeagueTableID) × GameState :=
  if s.current_company ≠ OWNER_DEITY then ((CMD_ERROR, LeagueTableID.Invalid), s)
  else if !s.league_table_pool.CanAllocateItem then ((CMD_ERROR, LeagueTableID.Invalid), s)
  else if title.empty then ((CMD_ERROR, LeagueTableID.Invalid), s)
  else if flags.Test DoCommandFlag.Execute then
    let created := s.league_table_pool.New (fun index => LeagueTable.mk index title header footer)
    ((CommandCost.zero, created.2.index), { s with league_table_pool := created.1 })
  else ((CommandCost.zero, LeagueTableID.Invalid), s)

/-- Create a new element in a league table (`CmdCreateLeagueTableElement`,
lines 83-97). -/
def CmdCreateLeagueTableElement (s : GameState) (flags : DoCommandFlags)
    (table : LeagueTableID) (rating : Int) (company : CompanyID)
    (text score : EncodedString) (link_type : LinkType) (link_target : LinkTargetID) :
    (CommandCost × LeagueTableElementID) × GameState :=
  if s.current_company ≠ OWNER_DEITY then ((CMD_ERROR, LeagueTableElementID.Invalid), s)
  else if !s.league_table_element_pool.CanAllocateItem then
    ((CMD_ERROR, LeagueTableElementID.Invalid), s)
  else
    let link : Link := ⟨link_type, link_target⟩
    if !IsValidLink s link then ((CMD_ERROR, LeagueTableElementID.Invalid), s)
    else if company ≠ CompanyID.Invalid && !s.company_pool.IsValidID company then
      ((CMD_ERROR, LeagueTableElementID.Invalid), s)
    else if flags.Test DoCommandFlag.Execute then
      let created := s.league_table_element_pool.New
        (fun index => LeagueTableElement.mk index table rating company text score link)
      let s1 := { s with league_table_element_pool := created.1 }
      let s2 := InvalidateWindowData s1 WindowClass.WC_COMPANY_LEAGUE table
      ((CommandCost.zero, created.2.index), s2)
    else ((CommandCost.zero, LeagueTableElementID.Invalid), s)

/-- Update the attributes of a league table element
(`CmdUpdateLeagueTableElementData`, lines 109-125). -/
def CmdUpdateLeagueTableElementData (s : GameState) (flags : DoCommandFlags)
    (element : LeagueTableElementID) (company : CompanyID) (text : EncodedString)
    (link_type : LinkType) (link_target : LinkTargetID) : CommandCost × GameState :=
  if s.current_company ≠ OWNER_DEITY then (CMD_ERROR, s)
  else
    match s.league_table_element_pool.GetIfValid element with
    | none => (CMD_ERROR, s)
    | some lte =>
      if company ≠ CompanyID.Invalid && !s.company_pool.IsValidID company then (CMD_ERROR, s)
      else
        let link : Link := ⟨link_type, link_target⟩
        if !IsValidLink s link then (CMD_ERROR, s)
        else if flags.Test DoCommandFlag.Execute then
          let lte1 := { lte with company := company, text := text, link := link }
          let s1 := { s with
            league_table_element_pool := s.league_table_element_pool.Store element lte1 }
          (CommandCost.zero, InvalidateWindowData s1 WindowClass.WC_COMPANY_LEAGUE lte1.table)
        else (CommandCost.zero, s)

/-- Update the score of a league table element
(`CmdUpdateLeagueTableElementScore`, lines 135-147). -/
def CmdUpdateLeagueTableElementScore (s : GameState) (flags : DoCommandFlags)
    (element : LeagueTableElementID) (rating : Int) (score : EncodedString) :
    CommandCost × GameState :=
  if s.current_company ≠ OWNER_DEITY then (CMD_ERROR, s)
  else
    match s.league_table_element_pool.GetIfValid element with
    | none => (CMD_ERROR, s)
    | some lte =>
      if flags.Test DoCommandFlag.Execute then
        let lte1 := { lte with rating := rating, score := score }
        let s1 := { s with
          league_table_element_pool := s.league_table_element_pool.Store element lte1 }
        (CommandCost.zero, InvalidateWindowData s1 WindowClass.WC_COMPANY_LEAGUE lte1.table)
      else (CommandCost.zero, s)

/-- Remove a league table element (`CmdRemoveLeagueTableElement`,
lines 155-167). -/
def CmdRemoveLeagueTableElement (s : GameState) (flags : DoCommandFlags)
    (element : LeagueTableElementID) : CommandCost × GameState :=
  if s.current_company ≠ OWNER_DEITY then (CMD_ERROR, s)
  else
    match s.league_table_element_pool.GetIfValid element with
    | none => (CMD_ERROR, s)
    | some lte =>
      if flags.Test DoCommandFlag.Execute then
        let table := lte.table
        let s1 := { s with
          league_table_element_pool := s.league_table_element_pool.Delete element }
        (CommandCost.zero, InvalidateWindowData s1 WindowClass.WC_COMPANY_LEAGUE table)
      else (CommandCost.zero, s)

/-! ## The command surface -/

/-- The five league commands with their parameter lists, for statements that
range over all of them. -/
inductive LeagueCommand where
  | CreateLeagueTable (title header footer : EncodedString)
  | CreateLeagueTableElement (table : LeagueTableID) (rating : Int) (company : CompanyID)
      (text score : EncodedString) (link_type : LinkType) (link_target : LinkTargetID)
  | UpdateLeagueTableElementData (element : LeagueTableElementID) (company : CompanyID)
      (text : EncodedString) (link_type : LinkType) (link_target : LinkTargetID)
  | UpdateLeagueTableElementScore (element : LeagueTableElementID) (rating : Int)
      (score : EncodedString)
  | RemoveLeagueTableElement (element : LeagueTableElementID)
  deriving DecidableEq, Repr

/-- Runs one league command: the outcome value and the state it leaves.  The
identifier that the two create commands also return is dropped here. -/
def LeagueCommand.run (s : GameState) (flags : DoCommandFlags) :
    LeagueCommand → CommandCost × GameState
  | .CreateLeagueTable title header footer =>
    ((CmdCreateLeagueTable s flags title header footer).1.1,
      (CmdCreateLeagueTable s flags title header footer).2)
  | .CreateLeagueTableElement table rating company text score link_type link_target =>
    ((CmdCreateLeagueTableElement s flags table rating company text score
        link_type link_target).1.1,
      (CmdCreateLeagueTableElement s flags table rating company text score
        link_type link_target).2)
  | .UpdateLeagueTableElementData element company text link_type link_target =>
    CmdUpdateLeagueTableElementData s flags element company text link_type link_target
  | .UpdateLeagueTableElementScore element rating score =>
    CmdUpdateLeagueTableElementScore s flags element rating score
  | .RemoveLeagueTableElement element =>
    CmdRemoveLeagueTableElement s flags element

/-- Both league pools of `t` are those of `s`, slot by slot, and the sink of
`t` holds the notifications of `s` and no other. -/
def LeagueFrame (s t : GameState) : Prop :=
  t.league_table_pool = s.league_table_pool ∧
  t.league_table_element_pool = s.league_table_element_pool ∧
  t.invalidations = s.invalidations

instance (s t : GameState) : Decidable (LeagueFrame s t) := by
  unfold LeagueFrame
  infer_instance

/-! ## Sample states -/

/-- A pool without any slot. -/
def Pool.fresh (α : Type) (limit : Nat) : Pool α := ⟨limit, []⟩

/-- Freshly initialised pools with the deity as the current authority and
the given capacities for the two league pools. -/
def GameState.fresh (tables elements : Nat) : GameState :=
  { current_company := OWNER_DEITY
    league_table_pool := Pool.fresh LeagueTable tables
    league_table_element_pool := Pool.fresh LeagueTableElement elements
    tiles := []
    industry_pool := Pool.fresh Unit 8
    town_pool := Pool.fresh Unit 8
    company_pool := Pool.fresh Unit 8
    story_page_pool := Pool.fresh Unit 8
    invalidations := [] }

/-- Execute mode. -/
def execFlags : DoCommandFlags := ⟨[DoCommandFlag.Execute]⟩

/-- Validate mode. -/
def testFlags : DoCommandFlags := ⟨[]⟩

/-- A short payload. -/
def txt (s : String) : EncodedString := ⟨s⟩

/-- A table element displaying `text` in table `table`. -/
def sampleElement (index : LeagueTableElementID) (table : LeagueTableID) :
    LeagueTableElement :=
  ⟨index, table, 100, CompanyID.Invalid, txt "entry", txt "100", ⟨LinkType.LT_NONE, 0⟩⟩

/-- The deity state with one table (identifier 0) and one element (identifier 0)
in it, room for one more of each. -/
def GameState.sample : GameState :=
  { GameState.fresh 2 2 with
    league_table_pool := ⟨2, [some ⟨0, txt "T", txt "", txt ""⟩]⟩
    league_table_element_pool := ⟨2, [some (sampleElement 0 0)]⟩ }

/-- Whether the command is `CmdCreateLeagueTable`, the one command of the
five whose body has no call of `InvalidateWindowData`. -/
def LeagueCommand.isCreateLeagueTable : LeagueCommand → Bool
  | .CreateLeagueTable _ _ _ => true
  | _ => false

/-- The later destruction of the entity a link names, in the pool of the kind
of the link (`delete` on the industry, town, company or story page).  A kind
without a pool leaves the state as it is. -/
def DestroyLinkTarget (s : GameState) (link : Link) : GameState :=
  match link.type with
  | .LT_INDUSTRY => { s with industry_pool := s.industry_pool.Delete link.target }
  | .LT_TOWN => { s with town_pool := s.town_pool.Delete link.target }
  | .LT_COMPANY => { s with company_pool := s.company_pool.Delete link.target }
  | .LT_STORY_PAGE => { s with story_page_pool := s.story_page_pool.Delete link.target }
  | _ => s

/-- The sample state with the industries 0 and 1 and the town 0 alive. -/
def GameState.populated : GameState :=
  { GameState.sample with
    tiles := [false, true, true, false]
    industry_pool := ⟨8, [some (), some ()]⟩
    town_pool := ⟨8, [some ()]⟩ }

/-- The sample state with room for three elements, of which 0 and 1 exist. -/
def GameState.crowded : GameState :=
  { GameState.sample with
    league_table_element_pool := ⟨3, [some (sampleElement 0 0), some (sampleElement 1 0)]⟩ }

/-! ## Sequences of commands -/

/-- One command as the command layer issues it: the authority that
`_current_company` is set to for the call, the flags and the command with its
parameters. -/
structure IssuedCommand where
  authority : CompanyID
  flags : DoCommandFlags
  command : LeagueCommand
  deriving DecidableEq, Repr

/-- The state after one issued command. -/
def IssuedCommand.apply (s : GameState) (c : IssuedCommand) : GameState :=
  (c.command.run { s with current_company := c.authority } c.flags).2

/-- The state after a sequence of issued commands, first to last. -/
def runCommands (s : GameState) : List IssuedCommand → GameState
  | [] => s
  | c :: rest => runCommands (c.apply s) rest

/-- Both league pools are freshly initialised: no slot at all. -/
def EmptyLeaguePools (s : GameState) : Prop :=
  s.league_table_pool.slots = [] ∧ s.league_table_element_pool.slots = []

instance (s : GameState) : Decidable (EmptyLeaguePools s) := by
  unfold EmptyLeaguePools
  infer_instance

/-- What every sequence of league commands maintains: each live table and
each live element is stored under its own index, and neither pool holds more
items than its limit. -/
def LeagueInvariant (s : GameState) : Prop :=
  (∀ (i : Nat) (lt : LeagueTable), s.league_table_pool.GetIfValid i = some lt → lt.index = i) ∧
  (∀ (i : Nat) (lte : LeagueTableElement),
    s.league_table_element_pool.GetIfValid i = some lte → lte.index = i) ∧
  s.league_table_pool.items ≤ s.league_table_pool.limit ∧
  s.league_table_element_pool.items ≤ s.league_table_element_pool.limit

/-- A sequence issued by the deity on pools with room for one table and two
elements: a table, a second table (no room), two elements, the removal of
element 0, an element again, one more element (no room), and at last a create
by company 0. -/
def sampleRun : List IssuedCommand :=
  [⟨OWNER_DEITY, execFlags, .CreateLeagueTable (txt "T") (txt "") (txt "")⟩,
   ⟨OWNER_DEITY, execFlags, .CreateLeagueTable (txt "U") (txt "") (txt "")⟩,
   ⟨OWNER_DEITY, execFlags,
     .CreateLeagueTableElement 0 10 CompanyID.Invalid (txt "a") (txt "10") .LT_NONE 0⟩,
   ⟨OWNER_DEITY, execFlags,
     .CreateLeagueTableElement 0 20 CompanyID.Invalid (txt "b") (txt "20") .LT_NONE 0⟩,
   ⟨OWNER_DEITY, execFlags, .RemoveLeagueTableElement 0⟩,
   ⟨OWNER_DEITY, execFlags,
     .CreateLeagueTableElement 0 30 CompanyID.Invalid (txt "c") (txt "30") .LT_NONE 0⟩,
   ⟨OWNER_DEITY, execFlags,
     .CreateLeagueTableElement 0 40 CompanyID.Invalid (txt "d") (txt "40") .LT_NONE 0⟩,
   ⟨0, execFlags, .CreateLeagueTable (txt "V") (txt "") (txt "")⟩]

/-! ## The slot pool -/

/-- The first free position lies within the storage or right behind it. -/
theorem Pool.firstFree_le_length {α : Type} (l : List (Option α)) :
    Pool.firstFree l ≤ l.length := by
  induction l with
  | nil => simp [Pool.firstFree]
  | cons a rest ih =>
    cases a with
    | none => simp [Pool.firstFree]
    | some x => simp [Pool.firstFree, ih]

/-- The item that `New` builds is constructed with the first free index and
is what `GetIfValid` finds there afterwards. -/
theorem Pool.GetIfValid_New {α : Type} (p : Pool α) (construct : Nat → α) :
    (p.New construct).1.GetIfValid p.FindFirstFree = some (construct p.FindFirstFree) ∧
    (p.New construct).2 = construct p.FindFirstFree := by
  unfold Pool.New Pool.GetIfValid
  have hle := Pool.firstFree_le_length p.slots
  by_cases h : p.FindFirstFree < p.slots.length
  · simp [h]
  · have he : p.FindFirstFree = p.slots.length := by
      unfold Pool.FindFirstFree at h ⊢
      omega
    simp [he]

/-- A destroyed identifier no longer resolves. -/
theorem Pool.GetIfValid_Delete_self {α : Type} (p : Pool α) (index : Nat) :
    (p.Delete index).GetIfValid index = none := by
  unfold Pool.Delete Pool.GetIfValid
  by_cases h : index < p.slots.length <;> simp [List.getElem?_set, h]

/-! ## Frame properties of the commands -/

/-- The decision of `CmdCreateLeagueTable`: the three checks, in any mode. -/
theorem CmdCreateLeagueTable_succeeded (s : GameState) (flags : DoCommandFlags)
    (title header footer : EncodedString) :
    (CmdCreateLeagueTable s flags title header footer).1.1.Succeeded = true ↔
      (s.current_company = OWNER_DEITY ∧ s.league_table_pool.CanAllocateItem = true ∧
        title.empty = false) := by
  unfold CmdCreateLeagueTable
  by_cases h1 : s.current_company = OWNER_DEITY <;>
    by_cases h2 : s.league_table_pool.CanAllocateItem = true <;>
    by_cases h3 : title.empty = true <;>
    by_cases h4 : flags.Test DoCommandFlag.Execute = true <;>
    simp [h1, h2, h3, h4, CommandCost.Succeeded, CommandCost.zero, CMD_ERROR]

/-- A failing `CmdCreateLeagueTable` returns `CMD_ERROR`, the Invalid
identifier and the state it was given. -/
theorem CmdCreateLeagueTable_failed (s : GameState) (flags : DoCommandFlags)
    (title header footer : EncodedString)
    (h : (CmdCreateLeagueTable s flags title header footer).1.1.Succeeded = false) :
    CmdCreateLeagueTable s flags title header footer =
      ((CMD_ERROR, LeagueTableID.Invalid), s) := by
  unfold CmdCreateLeagueTable at h ⊢
  by_cases h1 : s.current_company = OWNER_DEITY <;>
    by_cases h2 : s.league_table_pool.CanAllocateItem = true <;>
    by_cases h3 : title.empty = true <;>
    by_cases h4 : flags.Test DoCommandFlag.Execute = true <;>
    simp [h1, h2, h3, h4, CommandCost.Succeeded, CommandCost.zero, CMD_ERROR] at h ⊢

/-- A succeeding `CmdCreateLeagueTable` in Validate mode returns the Invalid
identifier and the state it was given. -/
theorem CmdCreateLeagueTable_validate (s : GameState) (flags : DoCommandFlags)
    (title header footer : EncodedString)
    (hf : flags.Test DoCommandFlag.Execute = false)
    (h : (CmdCreateLeagueTable s flags title header footer).1.1.Succeeded = true) :
    CmdCreateLeagueTable s flags title header footer =
      ((CommandCost.zero, LeagueTableID.Invalid), s) := by
  unfold CmdCreateLeagueTable at h ⊢
  by_cases h1 : s.current_company = OWNER_DEITY <;>
    by_cases h2 : s.league_table_pool.CanAllocateItem = true <;>
    by_cases h3 : title.empty = true <;>
    simp [h1, h2, h3, hf, CommandCost.Succeeded, CommandCost.zero, CMD_ERROR] at h ⊢

/-- A succeeding `CmdCreateLeagueTable` in Execute mode allocates the table and
touches nothing else. -/
theorem CmdCreateLeagueTable_execute (s : GameState) (flags : DoCommandFlags)
    (title header footer : EncodedString)
    (hf : flags.Test DoCommandFlag.Execute = true)
    (h : (CmdCreateLeagueTable s flags title header footer).1.1.Succeeded = true) :
    CmdCreateLeagueTable s flags title header footer =
      ((CommandCost.zero,
          (s.league_table_pool.New (fun index => LeagueTable.mk index title header footer)).2.index),
        { s with league_table_pool :=
            (s.league_table_pool.New (fun index => LeagueTable.mk index title header footer)).1 }) := by
  unfold CmdCreateLeagueTable at h ⊢
  by_cases h1 : s.current_company = OWNER_DEITY <;>
    by_cases h2 : s.league_table_pool.CanAllocateItem = true <;>
    by_cases h3 : title.empty = true <;>
    simp [h1, h2, h3, hf, CommandCost.Succeeded, CommandCost.zero, CMD_ERROR] at h ⊢

/-- The decision of `CmdCreateLeagueTableElement`: the four checks, in any
mode.  The table parameter does not occur in it. -/
theorem CmdCreateLeagueTableElement_succeeded (s : GameState) (flags : DoCommandFlags)
    (table : LeagueTableID) (rating : Int) (company : CompanyID)
    (text score : EncodedString) (link_type : LinkType) (link_target : LinkTargetID) :
    (CmdCreateLeagueTableElement s flags table rating company text score
        link_type link_target).1.1.Succeeded = true ↔
      (s.current_company = OWNER_DEITY ∧ s.league_table_element_pool.CanAllocateItem = true ∧
        IsValidLink s ⟨link_type, link_target⟩ = true ∧
        (company = CompanyID.Invalid ∨ s.company_pool.IsValidID company = true)) := by
  unfold CmdCreateLeagueTableElement
  by_cases h1 : s.current_company = OWNER_DEITY <;>
    by_cases h2 : s.league_table_element_pool.CanAllocateItem = true <;>
    by_cases h3 : IsValidLink s ⟨link_type, link_target⟩ = true <;>
    by_cases h4 : company = CompanyID.Invalid <;>
    by_cases h5 : s.company_pool.IsValidID company = true <;>
    by_cases h6 : flags.Test DoCommandFlag.Execute = true <;>
    simp [h1, h2, h3, h4, h5, h6, CommandCost.Succeeded, CommandCost.zero, CMD_ERROR]

/-- A failing `CmdCreateLeagueTableElement` returns `CMD_ERROR`, the Invalid
identifier and the state it was given. -/
theorem CmdCreateLeagueTableElement_failed (s : GameState) (flags : DoCommandFlags)
    (table : LeagueTableID) (rating : Int) (company : CompanyID)
    (text score : EncodedString) (link_type : LinkType) (link_target : LinkTargetID)
    (h : (CmdCreateLeagueTableElement s flags table rating company text score
        link_type link_target).1.1.Succeeded = false) :
    CmdCreateLeagueTableElement s flags table rating company text score link_type link_target =
      ((CMD_ERROR, LeagueTableElementID.Invalid), s) := by
  unfold CmdCreateLeagueTableElement at h ⊢
  by_cases h1 : s.current_company = OWNER_DEITY <;>
    by_cases h2 : s.league_table_element_pool.CanAllocateItem = true <;>
    by_cases h3 : IsValidLink s ⟨link_type, link_target⟩ = true <;>
    by_cases h4 : company = CompanyID.Invalid <;>
    by_cases h5 : s.company_pool.IsValidID company = true <;>
    by_cases h6 : flags.Test DoCommandFlag.Execute = true <;>
    simp [h1, h2, h3, h4, h5, h6, CommandCost.Succeeded, CommandCost.zero, CMD_ERROR] at h ⊢

/-- A succeeding `CmdCreateLeagueTableElement` in Validate mode returns the
Invalid identifier and the state it was given. -/
theorem CmdCreateLeagueTableElement_validate (s : GameState) (flags : DoCommandFlags)
    (table : LeagueTableID) (rating : Int) (company : CompanyID)
    (text score : EncodedString) (link_type : LinkType) (link_target : LinkTargetID)
    (hf : flags.Test DoCommandFlag.Execute = false)
    (h : (CmdCreateLeagueTableElement s flags table rating company text score
        link_type link_target).1.1.Succeeded = true) :
    CmdCreateLeagueTableElement s flags table rating company text score link_type link_target =
      ((CommandCost.zero, LeagueTableElementID.Invalid), s) := by
  unfold CmdCreateLeagueTableElement at h ⊢
  by_cases h1 : s.current_company = OWNER_DEITY <;>
    by_cases h2 : s.league_table_element_pool.CanAllocateItem = true <;>
    by_cases h3 : IsValidLink s ⟨link_type, link_target⟩ = true <;>
    by_cases h4 : company = CompanyID.Invalid <;>
    by_cases h5 : s.company_pool.IsValidID company = true <;>
    simp [h1, h2, h3, h4, h5, hf, CommandCost.Succeeded, CommandCost.zero, CMD_ERROR] at h ⊢

/-- A succeeding `CmdCreateLeagueTableElement` in Execute mode allocates the
element, notifies the sink with the table parameter and touches nothing else. -/
theorem CmdCreateLeagueTableElement_execute (s : GameState) (flags : DoCommandFlags)
    (table : LeagueTableID) (rating : Int) (company : CompanyID)
    (text score : EncodedString) (link_type : LinkType) (link_target : LinkTargetID)
    (hf : flags.Test DoCommandFlag.Execute = true)
    (h : (CmdCreateLeagueTableElement s flags table rating company text score
        link_type link_target).1.1.Succeeded = true) :
    CmdCreateLeagueTableElement s flags table rating company text score link_type link_target =
      ((CommandCost.zero,
          (s.league_table_element_pool.New (fun index => LeagueTableElement.mk index table
            rating company text score ⟨link_type, link_target⟩)).2.index),
        { s with
          league_table_element_pool :=
            (s.league_table_element_pool.New (fun index => LeagueTableElement.mk index table
              rating company text score ⟨link_type, link_target⟩)).1
          invalidations := s.invalidations ++ [(WindowClass.WC_COMPANY_LEAGUE, table)] }) := by
  unfold CmdCreateLeagueTableElement at h ⊢
  by_cases h1 : s.current_company = OWNER_DEITY <;>
    by_cases h2 : s.league_table_element_pool.CanAllocateItem = true <;>
    by_cases h3 : IsValidLink s ⟨link_type, link_target⟩ = true <;>
    by_cases h4 : company = CompanyID.Invalid <;>
    by_cases h5 : s.company_pool.IsValidID company = true <;>
    simp [h1, h2, h3, h4, h5, hf, CommandCost.Succeeded, CommandCost.zero, CMD_ERROR,
      InvalidateWindowData] at h ⊢

/-- The decision of `CmdUpdateLeagueTableElementData`: the four checks, in any
mode. -/
theorem CmdUpdateLeagueTableElementData_succeeded (s : GameState) (flags : DoCommandFlags)
    (element : LeagueTableElementID) (company : CompanyID) (text : EncodedString)
    (link_type : LinkType) (link_target : LinkTargetID) :
    (CmdUpdateLeagueTableElementData s flags element company text
        link_type link_target).1.Succeeded = true ↔
      (s.current_company = OWNER_DEITY ∧
        (s.league_table_element_pool.GetIfValid element).isSome = true ∧
        (company = CompanyID.Invalid ∨ s.company_pool.IsValidID company = true) ∧
        IsValidLink s ⟨link_type, link_target⟩ = true) := by
  unfold CmdUpdateLeagueTableElementData
  cases hg : s.league_table_element_pool.GetIfValid element <;>
    by_cases h1 : s.current_company = OWNER_DEITY <;>
    by_cases h3 : IsValidLink s ⟨link_type, link_target⟩ = true <;>
    by_cases h4 : company = CompanyID.Invalid <;>
    by_cases h5 : s.company_pool.IsValidID company = true <;>
    by_cases h6 : flags.Test DoCommandFlag.Execute = true <;>
    simp [h1, h3, h4, h5, h6, CommandCost.Succeeded, CommandCost.zero, CMD_ERROR]

/-- A failing `CmdUpdateLeagueTableElementData` returns `CMD_ERROR` and the
state it was given. -/
theorem CmdUpdateLeagueTableElementData_failed (s : GameState) (flags : DoCommandFlags)
    (element : LeagueTableElementID) (company : CompanyID) (text : EncodedString)
    (link_type : LinkType) (link_target : LinkTargetID)
    (h : (CmdUpdateLeagueTableElementData s flags element company text
        link_type link_target).1.Succeeded = false) :
    CmdUpdateLeagueTableElementData s flags element company text link_type link_target =
      (CMD_ERROR, s) := by
  unfold CmdUpdateLeagueTableElementData at h ⊢
  cases hg : s.league_table_element_pool.GetIfValid element <;>
    by_cases h1 : s.current_company = OWNER_DEITY <;>
    by_cases h3 : IsValidLink s ⟨link_type, link_target⟩ = true <;>
    by_cases h4 : company = CompanyID.Invalid <;>
    by_cases h5 : s.company_pool.IsValidID company = true <;>
    by_cases h6 : flags.Test DoCommandFlag.Execute = true <;>
    simp [hg, h1, h3, h4, h5, h6, CommandCost.Succeeded, CommandCost.zero, CMD_ERROR] at h ⊢

/-- A succeeding `CmdUpdateLeagueTableElementData` in Validate mode returns the
state it was given. -/
theorem CmdUpdateLeagueTableElementData_validate (s : GameState) (flags : DoCommandFlags)
    (element : LeagueTableElementID) (company : CompanyID) (text : EncodedString)
    (link_type : LinkType) (link_target : LinkTargetID)
    (hf : flags.Test DoCommandFlag.Execute = false)
    (h : (CmdUpdateLeagueTableElementData s flags element company text
        link_type link_target).1.Succeeded = true) :
    CmdUpdateLeagueTableElementData s flags element company text link_type link_target =
      (CommandCost.zero, s) := by
  unfold CmdUpdateLeagueTableElementData at h ⊢
  cases hg : s.league_table_element_pool.GetIfValid element <;>
    by_cases h1 : s.current_company = OWNER_DEITY <;>
    by_cases h3 : IsValidLink s ⟨link_type, link_target⟩ = true <;>
    by_cases h4 : company = CompanyID.Invalid <;>
    by_cases h5 : s.company_pool.IsValidID company = true <;>
    simp [hg, h1, h3, h4, h5, hf, CommandCost.Succeeded, CommandCost.zero, CMD_ERROR] at h ⊢

/-- A succeeding `CmdUpdateLeagueTableElementData` in Execute mode overwrites
company, text and link of the element, notifies the sink with the table of the
element and touches nothing else. -/
theorem CmdUpdateLeagueTableElementData_execute (s : GameState) (flags : DoCommandFlags)
    (element : LeagueTableElementID) (company : CompanyID) (text : EncodedString)
    (link_type : LinkType) (link_target : LinkTargetID) (lte : LeagueTableElement)
    (hg : s.league_table_element_pool.GetIfValid element = some lte)
    (hf : flags.Test DoCommandFlag.Execute = true)
    (h : (CmdUpdateLeagueTableElementData s flags element company text
        link_type link_target).1.Succeeded = true) :
    CmdUpdateLeagueTableElementData s flags element company text link_type link_target =
      (CommandCost.zero,
        { s with
          league_table_element_pool := s.league_table_element_pool.Store element
            { lte with company := company, text := text, link := ⟨link_type, link_target⟩ }
          invalidations := s.invalidations ++ [(WindowClass.WC_COMPANY_LEAGUE, lte.table)] }) := by
  unfold CmdUpdateLeagueTableElementData at h ⊢
  by_cases h1 : s.current_company = OWNER_DEITY <;>
    by_cases h3 : IsValidLink s ⟨link_type, link_target⟩ = true <;>
    by_cases h4 : company = CompanyID.Invalid <;>
    by_cases h5 : s.company_pool.IsValidID company = true <;>
    simp [hg, h1, h3, h4, h5, hf, CommandCost.Succeeded, CommandCost.zero, CMD_ERROR,
      InvalidateWindowData] at h ⊢

/-- The decision of `CmdUpdateLeagueTableElementScore`: the two checks, in any
mode. -/
theorem CmdUpdateLeagueTableElementScore_succeeded (s : GameState) (flags : DoCommandFlags)
    (element : LeagueTableElementID) (rating : Int) (score : EncodedString) :
    (CmdUpdateLeagueTableElementScore s flags element rating score).1.Succeeded = true ↔
      (s.current_company = OWNER_DEITY ∧
        (s.league_table_element_pool.GetIfValid element).isSome = true) := by
  unfold CmdUpdateLeagueTableElementScore
  cases hg : s.league_table_element_pool.GetIfValid element <;>
    by_cases h1 : s.current_company = OWNER_DEITY <;>
    by_cases h6 : flags.Test DoCommandFlag.Execute = true <;>
    simp [h1, h6, CommandCost.Succeeded, CommandCost.zero, CMD_ERROR]

/-- A failing `CmdUpdateLeagueTableElementScore` returns `CMD_ERROR` and the
state it was given. -/
theorem CmdUpdateLeagueTableElementScore_failed (s : GameState) (flags : DoCommandFlags)
    (element : LeagueTableElementID) (rating : Int) (score : EncodedString)
    (h : (CmdUpdateLeagueTableElementScore s flags element rating score).1.Succeeded = false) :
    CmdUpdateLeagueTableElementScore s flags element rating score = (CMD_ERROR, s) := by
  unfold CmdUpdateLeagueTableElementScore at h ⊢
  cases hg : s.league_table_element_pool.GetIfValid element <;>
    by_cases h1 : s.current_company = OWNER_DEITY <;>
    by_cases h6 : flags.Test DoCommandFlag.Execute = true <;>
    simp [hg, h1, h6, CommandCost.Succeeded, CommandCost.zero, CMD_ERROR] at h ⊢

/-- A succeeding `CmdUpdateLeagueTableElementScore` in Validate mode returns
the state it was given. -/
theorem CmdUpdateLeagueTableElementScore_validate (s : GameState) (flags : DoCommandFlags)
    (element : LeagueTableElementID) (rating : Int) (score : EncodedString)
    (hf : flags.Test DoCommandFlag.Execute = false)
    (h : (CmdUpdateLeagueTableElementScore s flags element rating score).1.Succeeded = true) :
    CmdUpdateLeagueTableElementScore s flags element rating score = (CommandCost.zero, s) := by
  unfold CmdUpdateLeagueTableElementScore at h ⊢
  cases hg : s.league_table_element_pool.GetIfValid element <;>
    by_cases h1 : s.current_company = OWNER_DEITY <;>
    simp [hg, h1, hf, CommandCost.Succeeded, CommandCost.zero, CMD_ERROR] at h ⊢

/-- A succeeding `CmdUpdateLeagueTableElementScore` in Execute mode overwrites
rating and score of the element, notifies the sink with the table of the
element and touches nothing else. -/
theorem CmdUpdateLeagueTableElementScore_execute (s : GameState) (flags : DoCommandFlags)
    (element : LeagueTableElementID) (rating : Int) (score : EncodedString)
    (lte : LeagueTableElement)
    (hg : s.league_table_element_pool.GetIfValid element = some lte)
    (hf : flags.Test DoCommandFlag.Execute = true)
    (h : (CmdUpdateLeagueTableElementScore s flags element rating score).1.Succeeded = true) :
    CmdUpdateLeagueTableElementScore s flags element rating score =
      (CommandCost.zero,
        { s with
          league_table_element_pool := s.league_table_element_pool.Store element
            { lte with rating := rating, score := score }
          invalidations := s.invalidations ++ [(WindowClass.WC_COMPANY_LEAGUE, lte.table)] }) := by
  unfold CmdUpdateLeagueTableElementScore at h ⊢
  by_cases h1 : s.current_company = OWNER_DEITY <;>
    simp [hg, h1, hf, CommandCost.Succeeded, CommandCost.zero, CMD_ERROR,
      InvalidateWindowData] at h ⊢

/-- The decision of `CmdRemoveLeagueTableElement`: the two checks, in any mode. -/
theorem CmdRemoveLeagueTableElement_succeeded (s : GameState) (flags : DoCommandFlags)
    (element : LeagueTableElementID) :
    (CmdRemoveLeagueTableElement s flags element).1.Succeeded = true ↔
      (s.current_company = OWNER_DEITY ∧
        (s.league_table_element_pool.GetIfValid element).isSome = true) := by
  unfold CmdRemoveLeagueTableElement
  cases hg : s.league_table_element_pool.GetIfValid element <;>
    by_cases h1 : s.current_company = OWNER_DEITY <;>
    by_cases h6 : flags.Test DoCommandFlag.Execute = true <;>
    simp [h1, h6, CommandCost.Succeeded, CommandCost.zero, CMD_ERROR]

/-- A failing `CmdRemoveLeagueTableElement` returns `CMD_ERROR` and the state
it was given. -/
theorem CmdRemoveLeagueTableElement_failed (s : GameState) (flags : DoCommandFlags)
    (element : LeagueTableElementID)
    (h : (CmdRemoveLeagueTableElement s flags element).1.Succeeded = false) :
    CmdRemoveLeagueTableElement s flags element = (CMD_ERROR, s) := by
  unfold CmdRemoveLeagueTableElement at h ⊢
  cases hg : s.league_table_element_pool.GetIfValid element <;>
    by_cases h1 : s.current_company = OWNER_DEITY <;>
    by_cases h6 : flags.Test DoCommandFlag.Execute = true <;>
    simp [hg, h1, h6, CommandCost.Succeeded, CommandCost.zero, CMD_ERROR] at h ⊢

/-- A succeeding `CmdRemoveLeagueTableElement` in Validate mode returns the
state it was given. -/
theorem CmdRemoveLeagueTableElement_validate (s : GameState) (flags : DoCommandFlags)
    (element : LeagueTableElementID)
    (hf : flags.Test DoCommandFlag.Execute = false)
    (h : (CmdRemoveLeagueTableElement s flags element).1.Succeeded = true) :
    CmdRemoveLeagueTableElement s flags element = (CommandCost.zero, s) := by
  unfold CmdRemoveLeagueTableElement at h ⊢
  cases hg : s.league_table_element_pool.GetIfValid element <;>
    by_cases h1 : s.current_company = OWNER_DEITY <;>
    simp [hg, h1, hf, CommandCost.Succeeded, CommandCost.zero, CMD_ERROR] at h ⊢

/-- A succeeding `CmdRemoveLeagueTableElement` in Execute mode frees the slot
of the element, notifies the sink with the table the element had and touches
nothing else. -/
theorem CmdRemoveLeagueTableElement_execute (s : GameState) (flags : DoCommandFlags)
    (element : LeagueTableElementID) (lte : LeagueTableElement)
    (hg : s.league_table_element_pool.GetIfValid element = some lte)
    (hf : flags.Test DoCommandFlag.Execute = true)
    (h : (CmdRemoveLeagueTableElement s flags element).1.Succeeded = true) :
    CmdRemoveLeagueTableElement s flags element =
      (CommandCost.zero,
        { s with
          league_table_element_pool := s.league_table_element_pool.Delete element
          invalidations := s.invalidations ++ [(WindowClass.WC_COMPANY_LEAGUE, lte.table)] }) := by
  unfold CmdRemoveLeagueTableElement at h ⊢
  by_cases h1 : s.current_company = OWNER_DEITY <;>
    simp [hg, h1, hf, CommandCost.Succeeded, CommandCost.zero, CMD_ERROR,
      InvalidateWindowData] at h ⊢

/-! ## The five commands together -/

/-- Whether a league command succeeds does not depend on the flags. -/
theorem run_succeeded_flags (s : GameState) (f g : DoCommandFlags) (cmd : LeagueCommand) :
    (cmd.run s f).1.Succeeded = true ↔ (cmd.run s g).1.Succeeded = true := by
  cases cmd with
  | CreateLeagueTable title header footer =>
    exact (CmdCreateLeagueTable_succeeded s f title header footer).trans
      (CmdCreateLeagueTable_succeeded s g title header footer).symm
  | CreateLeagueTableElement table rating company text score link_type link_target =>
    exact (CmdCreateLeagueTableElement_succeeded s f table rating company text score
      link_type link_target).trans
      (CmdCreateLeagueTableElement_succeeded s g table rating company text score
        link_type link_target).symm
  | UpdateLeagueTableElementData element company text link_type link_target =>
    exact (CmdUpdateLeagueTableElementData_succeeded s f element company text
      link_type link_target).trans
      (CmdUpdateLeagueTableElementData_succeeded s g element company text
        link_type link_target).symm
  | UpdateLeagueTableElementScore element rating score =>
    exact (CmdUpdateLeagueTableElementScore_succeeded s f element rating score).trans
      (CmdUpdateLeagueTableElementScore_succeeded s g element rating score).symm
  | RemoveLeagueTableElement element =>
    exact (CmdRemoveLeagueTableElement_succeeded s f element).trans
      (CmdRemoveLeagueTableElement_succeeded s g element).symm

/-- A league command that does not succeed returns `CMD_ERROR` and the state
it was given. -/
theorem run_failed (s : GameState) (flags : DoCommandFlags) (cmd : LeagueCommand)
    (h : (cmd.run s flags).1.Succeeded = false) : cmd.run s flags = (CMD_ERROR, s) := by
  cases cmd with
  | CreateLeagueTable title header footer =>
    simp only [LeagueCommand.run] at h ⊢
    rw [CmdCreateLeagueTable_failed s flags title header footer h]
  | CreateLeagueTableElement table rating company text score link_type link_target =>
    simp only [LeagueCommand.run] at h ⊢
    rw [CmdCreateLeagueTableElement_failed s flags table rating company text score
      link_type link_target h]
  | UpdateLeagueTableElementData element company text link_type link_target =>
    exact CmdUpdateLeagueTableElementData_failed s flags element company text
      link_type link_target h
  | UpdateLeagueTableElementScore element rating score =>
    exact CmdUpdateLeagueTableElementScore_failed s flags element rating score h
  | RemoveLeagueTableElement element =>
    exact CmdRemoveLeagueTableElement_failed s flags element h

/-- A league command that succeeds in Validate mode returns the default
outcome and the state it was given. -/
theorem run_validate (s : GameState) (flags : DoCommandFlags) (cmd : LeagueCommand)
    (hf : flags.Test DoCommandFlag.Execute = false)
    (h : (cmd.run s flags).1.Succeeded = true) : cmd.run s flags = (CommandCost.zero, s) := by
  cases cmd with
  | CreateLeagueTable title header footer =>
    simp only [LeagueCommand.run] at h ⊢
    rw [CmdCreateLeagueTable_validate s flags title header footer hf h]
  | CreateLeagueTableElement table rating company text score link_type link_target =>
    simp only [LeagueCommand.run] at h ⊢
    rw [CmdCreateLeagueTableElement_validate s flags table rating company text score
      link_type link_target hf h]
  | UpdateLeagueTableElementData element company text link_type link_target =>
    exact CmdUpdateLeagueTableElementData_validate s flags element company text
      link_type link_target hf h
  | UpdateLeagueTableElementScore element rating score =>
    exact CmdUpdateLeagueTableElementScore_validate s flags element rating score hf h
  | RemoveLeagueTableElement element =>
    exact CmdRemoveLeagueTableElement_validate s flags element hf h

/-- A league command issued by another authority than the deity does not
succeed. -/
theorem run_not_deity (s : GameState) (flags : DoCommandFlags) (cmd : LeagueCommand)
    (h : s.current_company ≠ OWNER_DEITY) : (cmd.run s flags).1.Succeeded = false := by
  cases hs : (cmd.run s flags).1.Succeeded with
  | false => rfl
  | true =>
    exfalso
    cases cmd with
    | CreateLeagueTable title header footer =>
      exact h ((CmdCreateLeagueTable_succeeded s flags title header footer).1 hs).1
    | CreateLeagueTableElement table rating company text score link_type link_target =>
      exact h ((CmdCreateLeagueTableElement_succeeded s flags table rating company text score
        link_type link_target).1 hs).1
    | UpdateLeagueTableElementData element company text link_type link_target =>
      exact h ((CmdUpdateLeagueTableElementData_succeeded s flags element company text
        link_type link_target).1 hs).1
    | UpdateLeagueTableElementScore element rating score =>
      exact h ((CmdUpdateLeagueTableElementScore_succeeded s flags element rating score).1 hs).1
    | RemoveLeagueTableElement element =>
      exact h ((CmdRemoveLeagueTableElement_succeeded s flags element).1 hs).1

/-- The frame of a state with itself. -/
theorem LeagueFrame.refl (s : GameState) : LeagueFrame s s := ⟨rfl, rfl, rfl⟩

/-! ## Validate mode, failure and authority -/

/-- C1: any of the five league commands run without the Execute flag leaves
the LeagueTable pool and the LeagueTableElement pool exactly as they were,
slot by slot, and adds no notification to the invalidation sink, for every
state, authority and parameter list. -/
theorem validate_mode_changes_nothing (s : GameState) (flags : DoCommandFlags)
    (cmd : LeagueCommand) (hf : flags.Test DoCommandFlag.Execute = false) :
    LeagueFrame s (cmd.run s flags).2 := by
  cases hs : (cmd.run s flags).1.Succeeded with
  | false => rw [run_failed s flags cmd hs]; exact LeagueFrame.refl s
  | true => rw [run_validate s flags cmd hf hs]; exact LeagueFrame.refl s

/-- Witness of C1: creating an element in Validate mode on the sample state. -/
theorem validate_mode_changes_nothing_witness :
    testFlags.Test DoCommandFlag.Execute = false ∧
    (LeagueCommand.run GameState.sample testFlags
      (LeagueCommand.CreateLeagueTableElement 0 7 CompanyID.Invalid (txt "a") (txt "7")
        LinkType.LT_NONE 0)).1.Succeeded = true ∧
    LeagueFrame GameState.sample
      (LeagueCommand.run GameState.sample testFlags
        (LeagueCommand.CreateLeagueTableElement 0 7 CompanyID.Invalid (txt "a") (txt "7")
          LinkType.LT_NONE 0)).2 :=
  ⟨by decide, by decide, validate_mode_changes_nothing GameState.sample testFlags _ (by decide)⟩

/-- C2: for each of the five league commands, on the same state with the same
authority and parameters, the run without the Execute flag reports success if
and only if the run with the Execute flag reports success. -/
theorem validate_succeeds_iff_execute_succeeds (s : GameState) (fv fe : DoCommandFlags)
    (cmd : LeagueCommand) (hv : fv.Test DoCommandFlag.Execute = false)
    (he : fe.Test DoCommandFlag.Execute = true) :
    (cmd.run s fv).1.Succeeded = true ↔ (cmd.run s fe).1.Succeeded = true :=
  run_succeeded_flags s fv fe cmd

/-- Witness of C2: removing the live element 0 of the sample state succeeds in
both modes. -/
theorem validate_succeeds_iff_execute_succeeds_witness :
    testFlags.Test DoCommandFlag.Execute = false ∧
    execFlags.Test DoCommandFlag.Execute = true ∧
    (LeagueCommand.run GameState.sample execFlags
      (LeagueCommand.RemoveLeagueTableElement 0)).1.Succeeded = true ∧
    ((LeagueCommand.run GameState.sample testFlags
        (LeagueCommand.RemoveLeagueTableElement 0)).1.Succeeded = true ↔
      (LeagueCommand.run GameState.sample execFlags
        (LeagueCommand.RemoveLeagueTableElement 0)).1.Succeeded = true) :=
  ⟨by decide, by decide, by decide,
    validate_succeeds_iff_execute_succeeds GameState.sample testFlags execFlags _
      (by decide) (by decide)⟩

/-- C3: no partial commit.  Whenever one of the five league commands fails, in
either mode, it has returned `CMD_ERROR`, both pools are unchanged and the
invalidation sink has not been notified. -/
theorem failure_changes_nothing (s : GameState) (flags : DoCommandFlags)
    (cmd : LeagueCommand) (h : (cmd.run s flags).1.Failed = true) :
    (cmd.run s flags).1 = CMD_ERROR ∧ LeagueFrame s (cmd.run s flags).2 := by
  have hs : (cmd.run s flags).1.Succeeded = false := by
    simpa [CommandCost.Failed, CommandCost.Succeeded] using h
  rw [run_failed s flags cmd hs]
  exact ⟨rfl, LeagueFrame.refl s⟩

/-- Witness of C3: in Execute mode, updating the element 5, which the sample
state does not have, fails. -/
theorem failure_changes_nothing_witness :
    (LeagueCommand.run GameState.sample execFlags
      (LeagueCommand.UpdateLeagueTableElementScore 5 1 (txt "1"))).1.Failed = true ∧
    (LeagueCommand.run GameState.sample execFlags
      (LeagueCommand.UpdateLeagueTableElementScore 5 1 (txt "1"))).1 = CMD_ERROR ∧
    LeagueFrame GameState.sample
      (LeagueCommand.run GameState.sample execFlags
        (LeagueCommand.UpdateLeagueTableElementScore 5 1 (txt "1"))).2 :=
  ⟨by decide, failure_changes_nothing GameState.sample execFlags _ (by decide)⟩

/-- C4: when the current authority is not `OWNER_DEITY`, each of the five
league commands returns `CMD_ERROR` in every mode and for every parameter
list, the two create commands return the Invalid identifier, both pools keep
their population and contents, and no invalidation is fired. -/
theorem not_deity_rejected (s : GameState) (flags : DoCommandFlags)
    (h : s.current_company ≠ OWNER_DEITY) :
    (∀ cmd : LeagueCommand,
      (cmd.run s flags).1 = CMD_ERROR ∧ LeagueFrame s (cmd.run s flags).2 ∧
      (cmd.run s flags).2.league_table_pool.items = s.league_table_pool.items ∧
      (cmd.run s flags).2.league_table_element_pool.items =
        s.league_table_element_pool.items) ∧
    (∀ title header footer : EncodedString,
      (CmdCreateLeagueTable s flags title header footer).1.2 = LeagueTableID.Invalid) ∧
    (∀ (table : LeagueTableID) (rating : Int) (company : CompanyID)
      (text score : EncodedString) (link_type : LinkType) (link_target : LinkTargetID),
      (CmdCreateLeagueTableElement s flags table rating company text score
        link_type link_target).1.2 = LeagueTableElementID.Invalid) := by
  refine ⟨fun cmd => ?_, fun title header footer => ?_,
    fun table rating company text score link_type link_target => ?_⟩
  · rw [run_failed s flags cmd (run_not_deity s flags cmd h)]
    exact ⟨rfl, LeagueFrame.refl s, rfl, rfl⟩
  · have hr := run_not_deity s flags (LeagueCommand.CreateLeagueTable title header footer) h
    rw [CmdCreateLeagueTable_failed s flags title header footer hr]
  · have hr := run_not_deity s flags (LeagueCommand.CreateLeagueTableElement table rating
      company text score link_type link_target) h
    rw [CmdCreateLeagueTableElement_failed s flags table rating company text score
      link_type link_target hr]

/-- Witness of C4: company 0 issues commands on the sample state, whose
parameters the deity would have had accepted. -/
theorem not_deity_rejected_witness :
    ({ GameState.sample with current_company := 0 } : GameState).current_company ≠ OWNER_DEITY ∧
    (LeagueCommand.run GameState.sample execFlags
      (LeagueCommand.CreateLeagueTableElement 0 7 CompanyID.Invalid (txt "a") (txt "7")
        LinkType.LT_NONE 0)).1.Succeeded = true ∧
    (LeagueCommand.run { GameState.sample with current_company := 0 } execFlags
      (LeagueCommand.CreateLeagueTableElement 0 7 CompanyID.Invalid (txt "a") (txt "7")
        LinkType.LT_NONE 0)).1 = CMD_ERROR :=
  ⟨by decide, by decide,
    ((not_deity_rejected { GameState.sample with current_company := 0 } execFlags
      (by decide)).1 _).1⟩

/-! ## Referenced entities and the sink -/

/-- C5: on freshly initialised pools, where no league table exists, the deity
creates an element for table 7 in Execute mode: the command succeeds, the new
element 0 stores the dangling table identifier 7, and the sink is notified for
table 7.  The table parameter is the one referenced entity that
`CmdCreateLeagueTableElement` never looks up. -/
theorem create_element_for_missing_table :
    (GameState.fresh 2 2).league_table_pool.GetIfValid 7 = none ∧
    (CmdCreateLeagueTableElement (GameState.fresh 2 2) execFlags 7 100 CompanyID.Invalid
      (txt "entry") (txt "100") LinkType.LT_NONE 0).1 = (CommandCost.zero, 0) ∧
    (CmdCreateLeagueTableElement (GameState.fresh 2 2) execFlags 7 100 CompanyID.Invalid
      (txt "entry") (txt "100") LinkType.LT_NONE 0).2.league_table_element_pool.GetIfValid 0 =
      some (sampleElement 0 7) ∧
    (CmdCreateLeagueTableElement (GameState.fresh 2 2) execFlags 7 100 CompanyID.Invalid
      (txt "entry") (txt "100") LinkType.LT_NONE 0).2.invalidations =
      [(WindowClass.WC_COMPANY_LEAGUE, 7)] ∧
    (CmdCreateLeagueTableElement (GameState.fresh 2 2) testFlags 7 100 CompanyID.Invalid
      (txt "entry") (txt "100") LinkType.LT_NONE 0).1.1.Succeeded = true := by
  decide

/-- Counterexample to C6 as stated: `CmdCreateLeagueTable` succeeds in Execute
mode on freshly initialised pools, the table 0 exists afterwards, and the sink
has received nothing. -/
theorem create_table_notifies_nobody :
    execFlags.Test DoCommandFlag.Execute = true ∧
    (CmdCreateLeagueTable (GameState.fresh 2 2) execFlags (txt "T") (txt "") (txt "")).1 =
      (CommandCost.zero, 0) ∧
    (CmdCreateLeagueTable (GameState.fresh 2 2) execFlags (txt "T") (txt "")
      (txt "")).2.league_table_pool.IsValidID 0 = true ∧
    (CmdCreateLeagueTable (GameState.fresh 2 2) execFlags (txt "T") (txt "")
      (txt "")).2.invalidations.length ≠ (GameState.fresh 2 2).invalidations.length + 1 := by
  decide

/-- C6, amended: the sink receives the notifications it had plus `added`,
where `added` holds exactly one notification when the command is one of the
four element commands and succeeds in Execute mode, and is empty when the
command fails, runs in Validate mode, or is `CmdCreateLeagueTable`. -/
theorem sink_called_once_or_never (s : GameState) (flags : DoCommandFlags)
    (cmd : LeagueCommand) :
    ∃ added : List (WindowClass × Nat),
      (cmd.run s flags).2.invalidations = s.invalidations ++ added ∧
      added.length =
        if (cmd.run s flags).1.Succeeded = true ∧ flags.Test DoCommandFlag.Execute = true ∧
            cmd.isCreateLeagueTable = false then 1 else 0 := by
  cases hs : (cmd.run s flags).1.Succeeded with
  | false =>
    refine ⟨[], ?_, by simp⟩
    rw [run_failed s flags cmd hs]
    simp
  | true =>
    cases hf : flags.Test DoCommandFlag.Execute with
    | false =>
      refine ⟨[], ?_, by simp⟩
      rw [run_validate s flags cmd hf hs]
      simp
    | true =>
      cases cmd with
      | CreateLeagueTable title header footer =>
        refine ⟨[], ?_, by simp [LeagueCommand.isCreateLeagueTable]⟩
        simp only [LeagueCommand.run] at hs ⊢
        rw [CmdCreateLeagueTable_execute s flags title header footer hf hs]
        simp
      | CreateLeagueTableElement table rating company text score link_type link_target =>
        refine ⟨[(WindowClass.WC_COMPANY_LEAGUE, table)], ?_,
          by simp [LeagueCommand.isCreateLeagueTable]⟩
        simp only [LeagueCommand.run] at hs ⊢
        rw [CmdCreateLeagueTableElement_execute s flags table rating company text score
          link_type link_target hf hs]
      | UpdateLeagueTableElementData element company text link_type link_target =>
        have hv := ((CmdUpdateLeagueTableElementData_succeeded s flags element company text
          link_type link_target).1 hs).2.1
        obtain ⟨lte, hg⟩ := Option.isSome_iff_exists.1 hv
        refine ⟨[(WindowClass.WC_COMPANY_LEAGUE, lte.table)], ?_,
          by simp [LeagueCommand.isCreateLeagueTable]⟩
        simp only [LeagueCommand.run] at hs ⊢
        rw [CmdUpdateLeagueTableElementData_execute s flags element company text
          link_type link_target lte hg hf hs]
      | UpdateLeagueTableElementScore element rating score =>
        have hv := ((CmdUpdateLeagueTableElementScore_succeeded s flags element rating
          score).1 hs).2
        obtain ⟨lte, hg⟩ := Option.isSome_iff_exists.1 hv
        refine ⟨[(WindowClass.WC_COMPANY_LEAGUE, lte.table)], ?_,
          by simp [LeagueCommand.isCreateLeagueTable]⟩
        simp only [LeagueCommand.run] at hs ⊢
        rw [CmdUpdateLeagueTableElementScore_execute s flags element rating score lte hg hf hs]
      | RemoveLeagueTableElement element =>
        have hv := ((CmdRemoveLeagueTableElement_succeeded s flags element).1 hs).2
        obtain ⟨lte, hg⟩ := Option.isSome_iff_exists.1 hv
        refine ⟨[(WindowClass.WC_COMPANY_LEAGUE, lte.table)], ?_,
          by simp [LeagueCommand.isCreateLeagueTable]⟩
        simp only [LeagueCommand.run] at hs ⊢
        rw [CmdRemoveLeagueTableElement_execute s flags element lte hg hf hs]

/-! ## Link validity -/

/-- C7: `IsValidLink` returns true exactly when the link is of kind `LT_NONE`
with target 0, or of one of the five kinds with a target and its target is
live in the pool of that very kind (a valid tile for `LT_TILE`); per kind the
answer is the answer of that kind alone, so a `LT_NONE` link with a non-zero
target is invalid and liveness in a pool of another kind is of no use. -/
theorem IsValidLink_iff (s : GameState) (link : Link) :
    (IsValidLink s link = true ↔
      (link.type = LinkType.LT_NONE ∧ link.target = 0) ∨
      (link.type = LinkType.LT_TILE ∧ IsValidTile s link.target = true) ∨
      (link.type = LinkType.LT_INDUSTRY ∧ s.industry_pool.IsValidID link.target = true) ∨
      (link.type = LinkType.LT_TOWN ∧ s.town_pool.IsValidID link.target = true) ∨
      (link.type = LinkType.LT_COMPANY ∧ s.company_pool.IsValidID link.target = true) ∨
      (link.type = LinkType.LT_STORY_PAGE ∧
        s.story_page_pool.IsValidID link.target = true)) ∧
    (∀ target : LinkTargetID,
      (IsValidLink s ⟨LinkType.LT_NONE, target⟩ = true ↔ target = 0) ∧
      IsValidLink s ⟨LinkType.LT_TILE, target⟩ = IsValidTile s target ∧
      IsValidLink s ⟨LinkType.LT_INDUSTRY, target⟩ = s.industry_pool.IsValidID target ∧
      IsValidLink s ⟨LinkType.LT_TOWN, target⟩ = s.town_pool.IsValidID target ∧
      IsValidLink s ⟨LinkType.LT_COMPANY, target⟩ = s.company_pool.IsValidID target ∧
      IsValidLink s ⟨LinkType.LT_STORY_PAGE, target⟩ = s.story_page_pool.IsValidID target) := by
  constructor
  · obtain ⟨type, target⟩ := link
    cases type <;> simp [IsValidLink]
  · intro target
    simp [IsValidLink]

/-- C8: `IsValidLink` fails closed.  A link whose type tag is none of the six
recognised kinds is invalid for every target and every state, and
`CmdCreateLeagueTableElement` and `CmdUpdateLeagueTableElementData` called
with such a `link_type` return `CMD_ERROR` and leave the state as it is. -/
theorem unrecognised_link_type_rejected (s : GameState) (flags : DoCommandFlags)
    (link_type : LinkType) (link_target : LinkTargetID)
    (h0 : link_type ≠ LinkType.LT_NONE) (h1 : link_type ≠ LinkType.LT_TILE)
    (h2 : link_type ≠ LinkType.LT_INDUSTRY) (h3 : link_type ≠ LinkType.LT_TOWN)
    (h4 : link_type ≠ LinkType.LT_COMPANY) (h5 : link_type ≠ LinkType.LT_STORY_PAGE) :
    IsValidLink s ⟨link_type, link_target⟩ = false ∧
    (∀ (table : LeagueTableID) (rating : Int) (company : CompanyID)
      (text score : EncodedString),
      CmdCreateLeagueTableElement s flags table rating company text score
        link_type link_target = ((CMD_ERROR, LeagueTableElementID.Invalid), s)) ∧
    (∀ (element : LeagueTableElementID) (company : CompanyID) (text : EncodedString),
      CmdUpdateLeagueTableElementData s flags element company text
        link_type link_target = (CMD_ERROR, s)) := by
  have hl : IsValidLink s ⟨link_type, link_target⟩ = false := by
    cases link_type <;> simp_all [IsValidLink]
  refine ⟨hl, fun table rating company text score => ?_, fun element company text => ?_⟩
  · apply CmdCreateLeagueTableElement_failed
    cases hs : (CmdCreateLeagueTableElement s flags table rating company text score
      link_type link_target).1.1.Succeeded with
    | false => rfl
    | true =>
      have hv := ((CmdCreateLeagueTableElement_succeeded s flags table rating company text
        score link_type link_target).1 hs).2.2.1
      rw [hl] at hv
      cases hv
  · apply CmdUpdateLeagueTableElementData_failed
    cases hs : (CmdUpdateLeagueTableElementData s flags element company text
      link_type link_target).1.Succeeded with
    | false => rfl
    | true =>
      have hv := ((CmdUpdateLeagueTableElementData_succeeded s flags element company text
        link_type link_target).1 hs).2.2.2
      rw [hl] at hv
      cases hv

/-- Witness of C8: the tag 6 with target 0 on the sample state, in Execute
mode, for parameters that are accepted with the tag `LT_NONE`. -/
theorem unrecognised_link_type_rejected_witness :
    (CmdUpdateLeagueTableElementData GameState.sample execFlags 0 CompanyID.Invalid
      (txt "a") LinkType.LT_NONE 0).1.Succeeded = true ∧
    CmdUpdateLeagueTableElementData GameState.sample execFlags 0 CompanyID.Invalid
      (txt "a") (LinkType.unrecognised 6) 0 = (CMD_ERROR, GameState.sample) :=
  ⟨by decide,
    (unrecognised_link_type_rejected GameState.sample execFlags (LinkType.unrecognised 6) 0
      (by decide) (by decide) (by decide) (by decide) (by decide) (by decide)).2.2
      0 CompanyID.Invalid (txt "a")⟩

/-- C9: link validity is evaluated against the current state.  For a link
kind with a target pool (industry, town, company, story page), once
`CmdCreateLeagueTableElement` has succeeded in Execute mode with the link
`(link_type, link_target)` and the target has then been destroyed in its own
pool, the returned identifier still resolves to an element, the link stored in
it is still `(link_type, link_target)`, that link was valid right after the
creation, and `IsValidLink` now returns false for it. -/
theorem stored_link_invalid_after_target_destroyed (s : GameState) (flags : DoCommandFlags)
    (table : LeagueTableID) (rating : Int) (company : CompanyID)
    (text score : EncodedString) (link_type : LinkType) (link_target : LinkTargetID)
    (hk : link_type = LinkType.LT_INDUSTRY ∨ link_type = LinkType.LT_TOWN ∨
      link_type = LinkType.LT_COMPANY ∨ link_type = LinkType.LT_STORY_PAGE)
    (hf : flags.Test DoCommandFlag.Execute = true)
    (hs : (CmdCreateLeagueTableElement s flags table rating company text score
      link_type link_target).1.1.Succeeded = true) :
    ∃ lte : LeagueTableElement,
      (DestroyLinkTarget (CmdCreateLeagueTableElement s flags table rating company text score
          link_type link_target).2 ⟨link_type, link_target⟩).league_table_element_pool.GetIfValid
        (CmdCreateLeagueTableElement s flags table rating company text score
          link_type link_target).1.2 = some lte ∧
      lte.link = ⟨link_type, link_target⟩ ∧
      IsValidLink (CmdCreateLeagueTableElement s flags table rating company text score
        link_type link_target).2 lte.link = true ∧
      IsValidLink (DestroyLinkTarget (CmdCreateLeagueTableElement s flags table rating company
        text score link_type link_target).2 ⟨link_type, link_target⟩) lte.link = false := by
  have hv := ((CmdCreateLeagueTableElement_succeeded s flags table rating company text score
    link_type link_target).1 hs).2.2.1
  rw [CmdCreateLeagueTableElement_execute s flags table rating company text score
    link_type link_target hf hs]
  obtain ⟨hget, hitem⟩ := Pool.GetIfValid_New s.league_table_element_pool
    (fun index => LeagueTableElement.mk index table rating company text score
      ⟨link_type, link_target⟩)
  refine ⟨LeagueTableElement.mk s.league_table_element_pool.FindFirstFree table rating company
    text score ⟨link_type, link_target⟩, ?_, rfl, ?_, ?_⟩
  · rw [hitem]
    rcases hk with hk | hk | hk | hk <;> subst hk <;> simpa [DestroyLinkTarget] using hget
  · rcases hk with hk | hk | hk | hk <;> subst hk <;> simpa [IsValidLink] using hv
  · rcases hk with hk | hk | hk | hk <;> subst hk <;>
      simp [IsValidLink, DestroyLinkTarget, Pool.IsValidID, Pool.GetIfValid_Delete_self]

/-- Witness of C9: an element linked to industry 1 of the populated state,
which is destroyed afterwards. -/
theorem stored_link_invalid_after_target_destroyed_witness :
    execFlags.Test DoCommandFlag.Execute = true ∧
    (CmdCreateLeagueTableElement GameState.populated execFlags 0 5 CompanyID.Invalid
      (txt "a") (txt "5") LinkType.LT_INDUSTRY 1).1.1.Succeeded = true ∧
    ∃ lte : LeagueTableElement,
      (DestroyLinkTarget (CmdCreateLeagueTableElement GameState.populated execFlags 0 5
          CompanyID.Invalid (txt "a") (txt "5") LinkType.LT_INDUSTRY 1).2
          ⟨LinkType.LT_INDUSTRY, 1⟩).league_table_element_pool.GetIfValid
        (CmdCreateLeagueTableElement GameState.populated execFlags 0 5 CompanyID.Invalid
          (txt "a") (txt "5") LinkType.LT_INDUSTRY 1).1.2 = some lte ∧
      lte.link = ⟨LinkType.LT_INDUSTRY, 1⟩ ∧
      IsValidLink (CmdCreateLeagueTableElement GameState.populated execFlags 0 5
        CompanyID.Invalid (txt "a") (txt "5") LinkType.LT_INDUSTRY 1).2 lte.link = true ∧
      IsValidLink (DestroyLinkTarget (CmdCreateLeagueTableElement GameState.populated execFlags
        0 5 CompanyID.Invalid (txt "a") (txt "5") LinkType.LT_INDUSTRY 1).2
        ⟨LinkType.LT_INDUSTRY, 1⟩) lte.link = false :=
  ⟨by decide, by decide,
    stored_link_invalid_after_target_destroyed GameState.populated execFlags 0 5
      CompanyID.Invalid (txt "a") (txt "5") LinkType.LT_INDUSTRY 1
      (Or.inl rfl) (by decide) (by decide)⟩

/-! ## Creating a table -/

/-- C10: `CmdCreateLeagueTable` succeeds if and only if the authority is
`OWNER_DEITY`, the LeagueTable pool can allocate an item and the title is not
empty; the outcome is the same for every other header and footer, the empty
ones included. -/
theorem CmdCreateLeagueTable_succeeds_iff (s : GameState) (flags : DoCommandFlags)
    (title header footer : EncodedString) :
    ((CmdCreateLeagueTable s flags title header footer).1.1.Succeeded = true ↔
      (s.current_company = OWNER_DEITY ∧ s.league_table_pool.CanAllocateItem = true ∧
        title.empty = false)) ∧
    ((CmdCreateLeagueTable s flags title header footer).1.1 = CommandCost.zero ∨
      (CmdCreateLeagueTable s flags title header footer).1.1 = CMD_ERROR) ∧
    (∀ header1 footer1 : EncodedString,
      (CmdCreateLeagueTable s flags title header1 footer1).1.1 =
        (CmdCreateLeagueTable s flags title header footer).1.1) := by
  refine ⟨CmdCreateLeagueTable_succeeded s flags title header footer, ?_, ?_⟩
  · unfold CmdCreateLeagueTable
    split_ifs <;> simp
  · intro header1 footer1
    unfold CmdCreateLeagueTable
    split_ifs <;> rfl

/-! ## Storage lemmas -/

/-- The first free position of a storage holds nothing. -/
theorem Pool.getD_firstFree {α : Type} (l : List (Option α)) :
    l.getD (Pool.firstFree l) none = none := by
  induction l with
  | nil => simp [Pool.firstFree]
  | cons a rest ih =>
    cases a with
    | none => simp [Pool.firstFree]
    | some x => simpa [Pool.firstFree] using ih

/-- Every position below the first free one is used. -/
theorem Pool.getD_lt_firstFree {α : Type} (l : List (Option α)) (j : Nat)
    (h : j < Pool.firstFree l) : (l.getD j none).isSome = true := by
  induction l generalizing j with
  | nil => simp [Pool.firstFree] at h
  | cons a rest ih =>
    cases a with
    | none => simp [Pool.firstFree] at h
    | some x =>
      cases j with
      | zero => simp
      | succ k =>
        have hk : k < Pool.firstFree rest := by simpa [Pool.firstFree] using h
        simpa using ih k hk

/-- The first free position is at most the number of used slots. -/
theorem Pool.firstFree_le_countP {α : Type} (l : List (Option α)) :
    Pool.firstFree l ≤ l.countP Option.isSome := by
  induction l with
  | nil => simp [Pool.firstFree]
  | cons a rest ih =>
    cases a with
    | none => simp [Pool.firstFree]
    | some x => simpa [Pool.firstFree] using ih

/-- Reading a position of a storage that was written elsewhere. -/
theorem Pool.getD_set_ne {α : Type} (l : List (Option α)) (i j : Nat) (v : Option α)
    (h : i ≠ j) : (l.set i v).getD j none = l.getD j none := by
  simp [List.getD_eq_getElem?_getD, List.getElem?_set_ne h]

/-- Reading the position of a storage that was written, when it exists. -/
theorem Pool.getD_set_self {α : Type} (l : List (Option α)) (i : Nat) (v : Option α)
    (h : i < l.length) : (l.set i v).getD i none = v := by
  simp [List.getD_eq_getElem?_getD, List.getElem?_set_self h]

/-- A position that holds an item exists. -/
theorem Pool.lt_length_of_getD {α : Type} (l : List (Option α)) (i : Nat) (x : α)
    (h : l.getD i none = some x) : i < l.length := by
  by_contra hn
  have hle : l.length ≤ i := Nat.le_of_not_lt hn
  simp [List.getD_eq_getElem?_getD, List.getElem?_eq_none hle] at h

/-- Filling a free position adds one used slot. -/
theorem Pool.countP_set_free {α : Type} (l : List (Option α)) (i : Nat) (x : α)
    (hi : i < l.length) (h : l.getD i none = none) :
    (l.set i (some x)).countP Option.isSome = l.countP Option.isSome + 1 := by
  induction l generalizing i with
  | nil => simp at hi
  | cons a rest ih =>
    cases i with
    | zero =>
      have ha : a = none := by simpa using h
      subst ha
      simp
    | succ k =>
      have hk : k < rest.length := by simpa using hi
      have hr : rest.getD k none = none := by simpa using h
      have := ih k hk hr
      cases a <;> simp [List.countP_cons, this]

/-- Overwriting a used position keeps the number of used slots. -/
theorem Pool.countP_set_used {α : Type} (l : List (Option α)) (i : Nat) (x y : α)
    (h : l.getD i none = some y) :
    (l.set i (some x)).countP Option.isSome = l.countP Option.isSome := by
  induction l generalizing i with
  | nil => simp at h
  | cons a rest ih =>
    cases i with
    | zero =>
      have ha : a = some y := by simpa using h
      subst ha
      simp
    | succ k =>
      have hr : rest.getD k none = some y := by simpa using h
      have := ih k hr
      cases a <;> simp [List.countP_cons, this]

/-- Freeing a used position removes one used slot. -/
theorem Pool.countP_set_none {α : Type} (l : List (Option α)) (i : Nat) (y : α)
    (h : l.getD i none = some y) :
    (l.set i none).countP Option.isSome + 1 = l.countP Option.isSome := by
  induction l generalizing i with
  | nil => simp at h
  | cons a rest ih =>
    cases i with
    | zero =>
      have ha : a = some y := by simpa using h
      subst ha
      simp
    | succ k =>
      have hr : rest.getD k none = some y := by simpa using h
      have := ih k hr
      cases a <;> simp [List.countP_cons] <;> omega

/-! ## Pool operations -/

/-- The slot that `New` is about to use is free. -/
theorem Pool.GetIfValid_FindFirstFree {α : Type} (p : Pool α) :
    p.GetIfValid p.FindFirstFree = none :=
  Pool.getD_firstFree p.slots

/-- Every identifier below the one `New` is about to use is live. -/
theorem Pool.IsValidID_lt_FindFirstFree {α : Type} (p : Pool α) (j : Nat)
    (h : j < p.FindFirstFree) : p.IsValidID j = true :=
  Pool.getD_lt_firstFree p.slots j h

/-- `New` leaves every other slot as it was. -/
theorem Pool.GetIfValid_New_ne {α : Type} (p : Pool α) (construct : Nat → α) (j : Nat)
    (h : j ≠ p.FindFirstFree) : (p.New construct).1.GetIfValid j = p.GetIfValid j := by
  unfold Pool.New Pool.GetIfValid
  have hle := Pool.firstFree_le_length p.slots
  by_cases hlt : p.FindFirstFree < p.slots.length
  · simp only [hlt, if_true]
    exact Pool.getD_set_ne p.slots _ j _ (Ne.symm h)
  · have he : p.FindFirstFree = p.slots.length := by
      unfold Pool.FindFirstFree at hlt ⊢
      omega
    simp only [hlt, if_false]
    rw [he] at h
    rcases Nat.lt_or_gt_of_ne h with hj | hj
    · simp [List.getD_eq_getElem?_getD, List.getElem?_append_left hj]
    · have h1 : (p.slots ++ [some (construct p.FindFirstFree)]).length ≤ j := by
        simp; omega
      have h2 : p.slots.length ≤ j := by omega
      rw [List.getD_eq_getElem?_getD, List.getD_eq_getElem?_getD,
        List.getElem?_eq_none h1, List.getElem?_eq_none h2]

/-- `New` adds exactly one item. -/
theorem Pool.items_New {α : Type} (p : Pool α) (construct : Nat → α) :
    (p.New construct).1.items = p.items + 1 := by
  unfold Pool.New Pool.items
  by_cases hlt : p.FindFirstFree < p.slots.length
  · simp only [hlt, if_true]
    exact Pool.countP_set_free p.slots _ _ hlt (Pool.getD_firstFree p.slots)
  · simp [hlt, List.countP_append]

/-- `New` keeps the limit. -/
theorem Pool.limit_New {α : Type} (p : Pool α) (construct : Nat → α) :
    (p.New construct).1.limit = p.limit := by
  unfold Pool.New
  by_cases hlt : p.FindFirstFree < p.slots.length <;> simp [hlt]

/-- While the pool can allocate, the slot `New` is about to use lies below
the limit. -/
theorem Pool.FindFirstFree_lt_limit {α : Type} (p : Pool α)
    (h : p.CanAllocateItem = true) : p.FindFirstFree < p.limit := by
  have h1 : p.items + 1 ≤ p.limit := by simpa [Pool.CanAllocateItem] using h
  have h2 : p.FindFirstFree ≤ p.items := Pool.firstFree_le_countP p.slots
  omega

/-- After `Store` the slot holds the item written. -/
theorem Pool.GetIfValid_Store_self {α : Type} (p : Pool α) (index : Nat) (item old : α)
    (h : p.GetIfValid index = some old) : (p.Store index item).GetIfValid index = some item :=
  Pool.getD_set_self p.slots index _ (Pool.lt_length_of_getD p.slots index old h)

/-- `Store` leaves every other slot as it was. -/
theorem Pool.GetIfValid_Store_ne {α : Type} (p : Pool α) (index j : Nat) (item : α)
    (h : j ≠ index) : (p.Store index item).GetIfValid j = p.GetIfValid j :=
  Pool.getD_set_ne p.slots index j _ (Ne.symm h)

/-- `Store` on a live slot keeps the population. -/
theorem Pool.items_Store {α : Type} (p : Pool α) (index : Nat) (item old : α)
    (h : p.GetIfValid index = some old) : (p.Store index item).items = p.items :=
  Pool.countP_set_used p.slots index item old h

/-- `Delete` leaves every other slot as it was. -/
theorem Pool.GetIfValid_Delete_ne {α : Type} (p : Pool α) (index j : Nat)
    (h : j ≠ index) : (p.Delete index).GetIfValid j = p.GetIfValid j :=
  Pool.getD_set_ne p.slots index j _ (Ne.symm h)

/-- `Delete` on a live slot removes exactly one item. -/
theorem Pool.items_Delete {α : Type} (p : Pool α) (index : Nat) (old : α)
    (h : p.GetIfValid index = some old) : (p.Delete index).items + 1 = p.items :=
  Pool.countP_set_none p.slots index old h

/-! ## Identifiers returned by the create commands -/

/-- In Execute mode a succeeding `CmdCreateLeagueTable` returns the first free
identifier of the LeagueTable pool. -/
theorem CmdCreateLeagueTable_id (s : GameState) (flags : DoCommandFlags)
    (title header footer : EncodedString)
    (hf : flags.Test DoCommandFlag.Execute = true)
    (h : (CmdCreateLeagueTable s flags title header footer).1.1.Succeeded = true) :
    (CmdCreateLeagueTable s flags title header footer).1.2 =
      s.league_table_pool.FindFirstFree := by
  rw [CmdCreateLeagueTable_execute s flags title header footer hf h]
  simp [(Pool.GetIfValid_New s.league_table_pool _).2]

/-- In Execute mode a succeeding `CmdCreateLeagueTableElement` returns the
first free identifier of the LeagueTableElement pool. -/
theorem CmdCreateLeagueTableElement_id (s : GameState) (flags : DoCommandFlags)
    (table : LeagueTableID) (rating : Int) (company : CompanyID)
    (text score : EncodedString) (link_type : LinkType) (link_target : LinkTargetID)
    (hf : flags.Test DoCommandFlag.Execute = true)
    (h : (CmdCreateLeagueTableElement s flags table rating company text score
        link_type link_target).1.1.Succeeded = true) :
    (CmdCreateLeagueTableElement s flags table rating company text score
        link_type link_target).1.2 = s.league_table_element_pool.FindFirstFree := by
  rw [CmdCreateLeagueTableElement_execute s flags table rating company text score
    link_type link_target hf h]
  simp [(Pool.GetIfValid_New s.league_table_element_pool _).2]

/-! ## Stale identifiers, updates and removal -/

/-- C11: stale element identifiers are rejected.  When the element identifier
does not resolve to a live LeagueTableElement, each of
`CmdUpdateLeagueTableElementData`, `CmdUpdateLeagueTableElementScore` and
`CmdRemoveLeagueTableElement` returns `CMD_ERROR` in every mode and leaves the
state as it is; and `CmdUpdateLeagueTableElementScore` and
`CmdRemoveLeagueTableElement` succeed if and only if the authority is
`OWNER_DEITY` and the element is live. -/
theorem stale_element_rejected (s : GameState) (flags : DoCommandFlags)
    (element : LeagueTableElementID) :
    (s.league_table_element_pool.GetIfValid element = none →
      (∀ (company : CompanyID) (text : EncodedString) (link_type : LinkType)
        (link_target : LinkTargetID),
        CmdUpdateLeagueTableElementData s flags element company text link_type link_target =
          (CMD_ERROR, s)) ∧
      (∀ (rating : Int) (score : EncodedString),
        CmdUpdateLeagueTableElementScore s flags element rating score = (CMD_ERROR, s)) ∧
      CmdRemoveLeagueTableElement s flags element = (CMD_ERROR, s)) ∧
    (∀ (rating : Int) (score : EncodedString),
      (CmdUpdateLeagueTableElementScore s flags element rating score).1.Succeeded = true ↔
        (s.current_company = OWNER_DEITY ∧
          s.league_table_element_pool.IsValidID element = true)) ∧
    ((CmdRemoveLeagueTableElement s flags element).1.Succeeded = true ↔
      (s.current_company = OWNER_DEITY ∧
        s.league_table_element_pool.IsValidID element = true)) := by
  refine ⟨fun hn => ⟨fun company text link_type link_target => ?_, fun rating score => ?_, ?_⟩,
    fun rating score => CmdUpdateLeagueTableElementScore_succeeded s flags element rating score,
    CmdRemoveLeagueTableElement_succeeded s flags element⟩
  · apply CmdUpdateLeagueTableElementData_failed
    cases hs : (CmdUpdateLeagueTableElementData s flags element company text
      link_type link_target).1.Succeeded with
    | false => rfl
    | true =>
      have hv := ((CmdUpdateLeagueTableElementData_succeeded s flags element company text
        link_type link_target).1 hs).2.1
      simp [hn] at hv
  · apply CmdUpdateLeagueTableElementScore_failed
    cases hs : (CmdUpdateLeagueTableElementScore s flags element rating score).1.Succeeded with
    | false => rfl
    | true =>
      have hv := ((CmdUpdateLeagueTableElementScore_succeeded s flags element rating
        score).1 hs).2
      simp [hn] at hv
  · apply CmdRemoveLeagueTableElement_failed
    cases hs : (CmdRemoveLeagueTableElement s flags element).1.Succeeded with
    | false => rfl
    | true =>
      have hv := ((CmdRemoveLeagueTableElement_succeeded s flags element).1 hs).2
      simp [hn] at hv

/-- Witness of C11: the sample state has no element 5; removing it in Execute
mode is rejected, removing the live element 0 succeeds. -/
theorem stale_element_rejected_witness :
    GameState.sample.league_table_element_pool.GetIfValid 5 = none ∧
    (CmdRemoveLeagueTableElement GameState.sample execFlags 0).1.Succeeded = true ∧
    CmdRemoveLeagueTableElement GameState.sample execFlags 5 = (CMD_ERROR, GameState.sample) :=
  ⟨by decide, by decide,
    ((stale_element_rejected GameState.sample execFlags 5).1 (by decide)).2.2⟩

/-- C12: a successful Execute mode `CmdUpdateLeagueTableElementScore` sets the
rating and the score of the element to the given values and nothing else: the
element keeps its index, table, company, text and link, every other element
slot and the whole LeagueTable pool are as before, and the populations of both
pools are as before. -/
theorem score_update_touches_rating_and_score (s : GameState) (flags : DoCommandFlags)
    (element : LeagueTableElementID) (rating : Int) (score : EncodedString)
    (hf : flags.Test DoCommandFlag.Execute = true)
    (hs : (CmdUpdateLeagueTableElementScore s flags element rating score).1.Succeeded = true) :
    ∃ lte : LeagueTableElement,
      s.league_table_element_pool.GetIfValid element = some lte ∧
      (CmdUpdateLeagueTableElementScore s flags element rating
        score).2.league_table_element_pool.GetIfValid element =
        some ⟨lte.index, lte.table, rating, lte.company, lte.text, score, lte.link⟩ ∧
      (∀ other : LeagueTableElementID, other ≠ element →
        (CmdUpdateLeagueTableElementScore s flags element rating
          score).2.league_table_element_pool.GetIfValid other =
          s.league_table_element_pool.GetIfValid other) ∧
      (CmdUpdateLeagueTableElementScore s flags element rating score).2.league_table_pool =
        s.league_table_pool ∧
      (CmdUpdateLeagueTableElementScore s flags element rating
        score).2.league_table_element_pool.items = s.league_table_element_pool.items ∧
      (CmdUpdateLeagueTableElementScore s flags element rating
        score).2.league_table_pool.items = s.league_table_pool.items := by
  have hv := ((CmdUpdateLeagueTableElementScore_succeeded s flags element rating score).1 hs).2
  obtain ⟨lte, hg⟩ := Option.isSome_iff_exists.1 hv
  rw [CmdUpdateLeagueTableElementScore_execute s flags element rating score lte hg hf hs]
  exact ⟨lte, hg, Pool.GetIfValid_Store_self _ element _ lte hg,
    fun other ho => Pool.GetIfValid_Store_ne _ element other _ ho, rfl,
    Pool.items_Store _ element _ lte hg, rfl⟩

/-- Witness of C12: the score of element 0 of the sample state is set. -/
theorem score_update_touches_rating_and_score_witness :
    execFlags.Test DoCommandFlag.Execute = true ∧
    (CmdUpdateLeagueTableElementScore GameState.sample execFlags 0 250
      (txt "250")).1.Succeeded = true ∧
    ∃ lte : LeagueTableElement,
      GameState.sample.league_table_element_pool.GetIfValid 0 = some lte ∧
      (CmdUpdateLeagueTableElementScore GameState.sample execFlags 0 250
        (txt "250")).2.league_table_element_pool.GetIfValid 0 =
        some ⟨lte.index, lte.table, 250, lte.company, lte.text, txt "250", lte.link⟩ :=
  ⟨by decide, by decide,
    (score_update_touches_rating_and_score GameState.sample execFlags 0 250 (txt "250")
      (by decide) (by decide)).imp fun _ h => ⟨h.1, h.2.1⟩⟩

/-- C13: a successful Execute mode `CmdRemoveLeagueTableElement` makes the
identifier dead, so that `GetIfValid` returns null for it and a second removal
is rejected in every mode; the element pool holds exactly one item less;
nothing is shifted, every other identifier resolves as before; and the
LeagueTable pool is as before. -/
theorem remove_frees_one_slot (s : GameState) (flags : DoCommandFlags)
    (element : LeagueTableElementID)
    (hf : flags.Test DoCommandFlag.Execute = true)
    (hs : (CmdRemoveLeagueTableElement s flags element).1.Succeeded = true) :
    (CmdRemoveLeagueTableElement s flags element).2.league_table_element_pool.GetIfValid
      element = none ∧
    (∀ again : DoCommandFlags,
      (CmdRemoveLeagueTableElement (CmdRemoveLeagueTableElement s flags element).2 again
        element).1 = CMD_ERROR) ∧
    (CmdRemoveLeagueTableElement s flags element).2.league_table_element_pool.items + 1 =
      s.league_table_element_pool.items ∧
    (∀ other : LeagueTableElementID, other ≠ element →
      (CmdRemoveLeagueTableElement s flags element).2.league_table_element_pool.GetIfValid
        other = s.league_table_element_pool.GetIfValid other) ∧
    (CmdRemoveLeagueTableElement s flags element).2.league_table_pool =
      s.league_table_pool := by
  have hv := ((CmdRemoveLeagueTableElement_succeeded s flags element).1 hs).2
  obtain ⟨lte, hg⟩ := Option.isSome_iff_exists.1 hv
  rw [CmdRemoveLeagueTableElement_execute s flags element lte hg hf hs]
  refine ⟨Pool.GetIfValid_Delete_self _ element, fun again => ?_,
    Pool.items_Delete _ element lte hg,
    fun other ho => Pool.GetIfValid_Delete_ne _ element other ho, rfl⟩
  have hfail : (CmdRemoveLeagueTableElement
      { s with
        league_table_element_pool := s.league_table_element_pool.Delete element
        invalidations := s.invalidations ++ [(WindowClass.WC_COMPANY_LEAGUE, lte.table)] }
      again element).1.Succeeded = false := by
    cases hs2 : (CmdRemoveLeagueTableElement
      { s with
        league_table_element_pool := s.league_table_element_pool.Delete element
        invalidations := s.invalidations ++ [(WindowClass.WC_COMPANY_LEAGUE, lte.table)] }
      again element).1.Succeeded with
    | false => rfl
    | true =>
      have hv2 := ((CmdRemoveLeagueTableElement_succeeded _ again element).1 hs2).2
      simp [Pool.GetIfValid_Delete_self] at hv2
  rw [CmdRemoveLeagueTableElement_failed _ again element hfail]

/-- Witness of C13: element 0 of the sample state is removed. -/
theorem remove_frees_one_slot_witness :
    execFlags.Test DoCommandFlag.Execute = true ∧
    (CmdRemoveLeagueTableElement GameState.sample execFlags 0).1.Succeeded = true ∧
    (CmdRemoveLeagueTableElement GameState.sample execFlags
      0).2.league_table_element_pool.GetIfValid 0 = none ∧
    (CmdRemoveLeagueTableElement GameState.sample execFlags
      0).2.league_table_element_pool.items = 0 :=
  ⟨by decide, by decide,
    (remove_frees_one_slot GameState.sample execFlags 0 (by decide) (by decide)).1,
    by decide⟩

/-! ## Allocation order -/

/-- C14: in Execute mode the identifier returned by a successful create
command is the lowest identifier that was free in its pool right before the
command: it was free and every lower identifier was live.  So on freshly
initialised pools the first table and the first element get identifier 0, and
after a successful removal of an element the next element created gets an
identifier that is not above the freed one. -/
theorem create_returns_lowest_free (s : GameState) (flags : DoCommandFlags)
    (hf : flags.Test DoCommandFlag.Execute = true) :
    (∀ title header footer : EncodedString,
      (CmdCreateLeagueTable s flags title header footer).1.1.Succeeded = true →
      s.league_table_pool.GetIfValid
        (CmdCreateLeagueTable s flags title header footer).1.2 = none ∧
      (∀ lower : Nat, lower < (CmdCreateLeagueTable s flags title header footer).1.2 →
        s.league_table_pool.IsValidID lower = true) ∧
      (s.league_table_pool.slots = [] →
        (CmdCreateLeagueTable s flags title header footer).1.2 = 0)) ∧
    (∀ (table : LeagueTableID) (rating : Int) (company : CompanyID)
      (text score : EncodedString) (link_type : LinkType) (link_target : LinkTargetID),
      (CmdCreateLeagueTableElement s flags table rating company text score
        link_type link_target).1.1.Succeeded = true →
      s.league_table_element_pool.GetIfValid
        (CmdCreateLeagueTableElement s flags table rating company text score
          link_type link_target).1.2 = none ∧
      (∀ lower : Nat, lower < (CmdCreateLeagueTableElement s flags table rating company text
          score link_type link_target).1.2 →
        s.league_table_element_pool.IsValidID lower = true) ∧
      (s.league_table_element_pool.slots = [] →
        (CmdCreateLeagueTableElement s flags table rating company text score
          link_type link_target).1.2 = 0)) ∧
    (∀ (removed : LeagueTableElementID) (table : LeagueTableID) (rating : Int)
      (company : CompanyID) (text score : EncodedString) (link_type : LinkType)
      (link_target : LinkTargetID),
      (CmdRemoveLeagueTableElement s flags removed).1.Succeeded = true →
      (CmdCreateLeagueTableElement (CmdRemoveLeagueTableElement s flags removed).2 flags
        table rating company text score link_type link_target).1.1.Succeeded = true →
      (CmdCreateLeagueTableElement (CmdRemoveLeagueTableElement s flags removed).2 flags
        table rating company text score link_type link_target).1.2 ≤ removed) := by
  refine ⟨fun title header footer hs => ?_,
    fun table rating company text score link_type link_target hs => ?_,
    fun removed table rating company text score link_type link_target hr hs => ?_⟩
  · rw [CmdCreateLeagueTable_id s flags title header footer hf hs]
    refine ⟨Pool.GetIfValid_FindFirstFree _,
      fun lower hl => Pool.IsValidID_lt_FindFirstFree _ lower hl, fun he => ?_⟩
    simp [Pool.FindFirstFree, he, Pool.firstFree]
  · rw [CmdCreateLeagueTableElement_id s flags table rating company text score
      link_type link_target hf hs]
    refine ⟨Pool.GetIfValid_FindFirstFree _,
      fun lower hl => Pool.IsValidID_lt_FindFirstFree _ lower hl, fun he => ?_⟩
    simp [Pool.FindFirstFree, he, Pool.firstFree]
  · rw [CmdCreateLeagueTableElement_id _ flags table rating company text score
      link_type link_target hf hs]
    have hv := ((CmdRemoveLeagueTableElement_succeeded s flags removed).1 hr).2
    obtain ⟨lte, hg⟩ := Option.isSome_iff_exists.1 hv
    rw [CmdRemoveLeagueTableElement_execute s flags removed lte hg hf hr]
    by_contra hlt
    have hlive := Pool.IsValidID_lt_FindFirstFree
      (s.league_table_element_pool.Delete removed) removed (Nat.lt_of_not_le hlt)
    simp [Pool.IsValidID, Pool.GetIfValid_Delete_self] at hlive

/-- Witness of C14: the first table on fresh pools gets identifier 0, and in
the state with the elements 0 and 1 the element created after the removal of 0
gets identifier 0 again, not 2. -/
theorem create_returns_lowest_free_witness :
    execFlags.Test DoCommandFlag.Execute = true ∧
    (CmdCreateLeagueTable (GameState.fresh 2 2) execFlags (txt "T") (txt "")
      (txt "")).1.1.Succeeded = true ∧
    (CmdCreateLeagueTable (GameState.fresh 2 2) execFlags (txt "T") (txt "") (txt "")).1.2 = 0 ∧
    (CmdCreateLeagueTableElement (CmdRemoveLeagueTableElement GameState.crowded execFlags 0).2
      execFlags 0 5 CompanyID.Invalid (txt "a") (txt "5") LinkType.LT_NONE 0).1 =
      (CommandCost.zero, 0) :=
  ⟨by decide, by decide,
    ((create_returns_lowest_free (GameState.fresh 2 2) execFlags (by decide)).1
      (txt "T") (txt "") (txt "") (by decide)).2.2 rfl,
    by decide⟩

/-! ## What a command does to the pools -/

/-- The pools after a league command: both as before, or one item allocated in
one of them while it could allocate, or one live element overwritten by an
item of the same index, or one live element destroyed. -/
theorem run_pools (s : GameState) (flags : DoCommandFlags) (cmd : LeagueCommand) :
    ((cmd.run s flags).2.league_table_pool = s.league_table_pool ∧
      (cmd.run s flags).2.league_table_element_pool = s.league_table_element_pool) ∨
    (∃ title header footer : EncodedString,
      s.league_table_pool.CanAllocateItem = true ∧
      (cmd.run s flags).2.league_table_pool =
        (s.league_table_pool.New (fun index => LeagueTable.mk index title header footer)).1 ∧
      (cmd.run s flags).2.league_table_element_pool = s.league_table_element_pool) ∨
    (∃ (table : LeagueTableID) (rating : Int) (company : CompanyID)
      (text score : EncodedString) (link : Link),
      s.league_table_element_pool.CanAllocateItem = true ∧
      (cmd.run s flags).2.league_table_element_pool =
        (s.league_table_element_pool.New (fun index => LeagueTableElement.mk index table
          rating company text score link)).1 ∧
      (cmd.run s flags).2.league_table_pool = s.league_table_pool) ∨
    (∃ (element : LeagueTableElementID) (lte item : LeagueTableElement),
      s.league_table_element_pool.GetIfValid element = some lte ∧
      item.index = lte.index ∧
      (cmd.run s flags).2.league_table_element_pool =
        s.league_table_element_pool.Store element item ∧
      (cmd.run s flags).2.league_table_pool = s.league_table_pool) ∨
    (∃ (element : LeagueTableElementID) (lte : LeagueTableElement),
      s.league_table_element_pool.GetIfValid element = some lte ∧
      (cmd.run s flags).2.league_table_element_pool =
        s.league_table_element_pool.Delete element ∧
      (cmd.run s flags).2.league_table_pool = s.league_table_pool) := by
  cases hs : (cmd.run s flags).1.Succeeded with
  | false => rw [run_failed s flags cmd hs]; exact Or.inl ⟨rfl, rfl⟩
  | true =>
    cases hf : flags.Test DoCommandFlag.Execute with
    | false => rw [run_validate s flags cmd hf hs]; exact Or.inl ⟨rfl, rfl⟩
    | true =>
      cases cmd with
      | CreateLeagueTable title header footer =>
        simp only [LeagueCommand.run] at hs ⊢
        have hc := ((CmdCreateLeagueTable_succeeded s flags title header footer).1 hs).2.1
        rw [CmdCreateLeagueTable_execute s flags title header footer hf hs]
        exact Or.inr (Or.inl ⟨title, header, footer, hc, rfl, rfl⟩)
      | CreateLeagueTableElement table rating company text score link_type link_target =>
        simp only [LeagueCommand.run] at hs ⊢
        have hc := ((CmdCreateLeagueTableElement_succeeded s flags table rating company text
          score link_type link_target).1 hs).2.1
        rw [CmdCreateLeagueTableElement_execute s flags table rating company text score
          link_type link_target hf hs]
        exact Or.inr (Or.inr (Or.inl ⟨table, rating, company, text, score,
          ⟨link_type, link_target⟩, hc, rfl, rfl⟩))
      | UpdateLeagueTableElementData element company text link_type link_target =>
        simp only [LeagueCommand.run] at hs ⊢
        have hv := ((CmdUpdateLeagueTableElementData_succeeded s flags element company text
          link_type link_target).1 hs).2.1
        obtain ⟨lte, hg⟩ := Option.isSome_iff_exists.1 hv
        rw [CmdUpdateLeagueTableElementData_execute s flags element company text
          link_type link_target lte hg hf hs]
        exact Or.inr (Or.inr (Or.inr (Or.inl ⟨element, lte,
          { lte with company := company, text := text, link := ⟨link_type, link_target⟩ },
          hg, rfl, rfl, rfl⟩)))
      | UpdateLeagueTableElementScore element rating score =>
        simp only [LeagueCommand.run] at hs ⊢
        have hv := ((CmdUpdateLeagueTableElementScore_succeeded s flags element rating
          score).1 hs).2
        obtain ⟨lte, hg⟩ := Option.isSome_iff_exists.1 hv
        rw [CmdUpdateLeagueTableElementScore_execute s flags element rating score lte hg hf hs]
        exact Or.inr (Or.inr (Or.inr (Or.inl ⟨element, lte,
          { lte with rating := rating, score := score }, hg, rfl, rfl, rfl⟩)))
      | RemoveLeagueTableElement element =>
        simp only [LeagueCommand.run] at hs ⊢
        have hv := ((CmdRemoveLeagueTableElement_succeeded s flags element).1 hs).2
        obtain ⟨lte, hg⟩ := Option.isSome_iff_exists.1 hv
        rw [CmdRemoveLeagueTableElement_execute s flags element lte hg hf hs]
        exact Or.inr (Or.inr (Or.inr (Or.inr ⟨element, lte, hg, rfl, rfl⟩)))

/-- An item built with its own index keeps "stored under its own index" true
after `New`. -/
theorem Pool.ownIndex_New {α : Type} (index : α → Nat) (p : Pool α) (construct : Nat → α)
    (hc : ∀ i, index (construct i) = i)
    (h : ∀ i e, p.GetIfValid i = some e → index e = i) :
    ∀ i e, (p.New construct).1.GetIfValid i = some e → index e = i := by
  intro i e hi
  by_cases hj : i = p.FindFirstFree
  · subst hj
    rw [(Pool.GetIfValid_New p construct).1] at hi
    cases hi
    exact hc _
  · rw [Pool.GetIfValid_New_ne p construct i hj] at hi
    exact h i e hi

/-- Overwriting a live item by one of the same index keeps "stored under its
own index" true. -/
theorem Pool.ownIndex_Store {α : Type} (index : α → Nat) (p : Pool α) (at_ : Nat)
    (item old : α) (hg : p.GetIfValid at_ = some old) (hi : index item = index old)
    (h : ∀ i e, p.GetIfValid i = some e → index e = i) :
    ∀ i e, (p.Store at_ item).GetIfValid i = some e → index e = i := by
  intro i e he
  by_cases hj : i = at_
  · subst hj
    rw [Pool.GetIfValid_Store_self p i item old hg] at he
    cases he
    rw [hi]
    exact h i old hg
  · rw [Pool.GetIfValid_Store_ne p at_ i item hj] at he
    exact h i e he

/-- Destroying an item keeps "stored under its own index" true. -/
theorem Pool.ownIndex_Delete {α : Type} (index : α → Nat) (p : Pool α) (at_ : Nat)
    (h : ∀ i e, p.GetIfValid i = some e → index e = i) :
    ∀ i e, (p.Delete at_).GetIfValid i = some e → index e = i := by
  intro i e he
  by_cases hj : i = at_
  · subst hj
    rw [Pool.GetIfValid_Delete_self] at he
    cases he
  · rw [Pool.GetIfValid_Delete_ne p at_ i hj] at he
    exact h i e he

/-- A league command maintains the invariant. -/
theorem LeagueInvariant_run (s : GameState) (flags : DoCommandFlags) (cmd : LeagueCommand)
    (h : LeagueInvariant s) : LeagueInvariant (cmd.run s flags).2 := by
  obtain ⟨ht, he, hbt, hbe⟩ := h
  rcases run_pools s flags cmd with ⟨h1, h2⟩ | ⟨title, header, footer, hc, h1, h2⟩ |
    ⟨table, rating, company, text, score, link, hc, h1, h2⟩ |
    ⟨element, lte, item, hg, hi, h1, h2⟩ | ⟨element, lte, hg, h1, h2⟩
  · unfold LeagueInvariant
    rw [h1, h2]
    exact ⟨ht, he, hbt, hbe⟩
  · unfold LeagueInvariant
    rw [h1, h2]
    refine ⟨Pool.ownIndex_New LeagueTable.index _ _ (fun _ => rfl) ht, he, ?_, hbe⟩
    rw [Pool.items_New, Pool.limit_New]
    simpa [Pool.CanAllocateItem] using hc
  · unfold LeagueInvariant
    rw [h1, h2]
    refine ⟨ht, Pool.ownIndex_New LeagueTableElement.index _ _ (fun _ => rfl) he, hbt, ?_⟩
    rw [Pool.items_New, Pool.limit_New]
    simpa [Pool.CanAllocateItem] using hc
  · unfold LeagueInvariant
    rw [h1, h2]
    refine ⟨ht, Pool.ownIndex_Store LeagueTableElement.index _ element item lte hg hi he,
      hbt, ?_⟩
    rw [Pool.items_Store _ element item lte hg]
    exact hbe
  · unfold LeagueInvariant
    rw [h1, h2]
    refine ⟨ht, Pool.ownIndex_Delete LeagueTableElement.index _ element he, hbt, ?_⟩
    have := Pool.items_Delete _ element lte hg
    have hl : (s.league_table_element_pool.Delete element).limit =
      s.league_table_element_pool.limit := rfl
    omega

/-- A league command keeps the limits of both pools. -/
theorem run_limits (s : GameState) (flags : DoCommandFlags) (cmd : LeagueCommand) :
    (cmd.run s flags).2.league_table_pool.limit = s.league_table_pool.limit ∧
    (cmd.run s flags).2.league_table_element_pool.limit =
      s.league_table_element_pool.limit := by
  rcases run_pools s flags cmd with ⟨h1, h2⟩ | ⟨title, header, footer, hc, h1, h2⟩ |
    ⟨table, rating, company, text, score, link, hc, h1, h2⟩ |
    ⟨element, lte, item, hg, hi, h1, h2⟩ | ⟨element, lte, hg, h1, h2⟩ <;>
    rw [h1, h2] <;> simp [Pool.limit_New, Pool.Store, Pool.Delete]

/-- Freshly initialised league pools satisfy the invariant. -/
theorem LeagueInvariant_empty (s : GameState) (h : EmptyLeaguePools s) :
    LeagueInvariant s := by
  obtain ⟨h1, h2⟩ := h
  unfold LeagueInvariant Pool.GetIfValid Pool.items
  rw [h1, h2]
  simp

/-- Every sequence of issued commands maintains the invariant. -/
theorem LeagueInvariant_runCommands (cmds : List IssuedCommand) (s : GameState)
    (h : LeagueInvariant s) : LeagueInvariant (runCommands s cmds) := by
  induction cmds generalizing s with
  | nil => exact h
  | cons c rest ih =>
    exact ih (c.apply s) (LeagueInvariant_run { s with current_company := c.authority }
      c.flags c.command h)

/-- Every sequence of issued commands keeps the limits of both pools. -/
theorem runCommands_limits (cmds : List IssuedCommand) (s : GameState) :
    (runCommands s cmds).league_table_pool.limit = s.league_table_pool.limit ∧
    (runCommands s cmds).league_table_element_pool.limit =
      s.league_table_element_pool.limit := by
  induction cmds generalizing s with
  | nil => exact ⟨rfl, rfl⟩
  | cons c rest ih =>
    have h1 := ih (c.apply s)
    have h2 := run_limits { s with current_company := c.authority } c.flags c.command
    exact ⟨h1.1.trans h2.1, h1.2.trans h2.2⟩

/-! ## Invariants of the command stream -/

/-- C15: identifier uniqueness is an invariant of the command stream.  In
every state reached from freshly initialised league pools by a sequence of the
five league commands, in any modes, under any authorities and with any
parameters, each live table and each live element is stored under its own
index, no two live entities of a kind share an identifier, and the identifier
that a create command returns on success in Execute mode was not live right
before that command. -/
theorem identifiers_unique (s0 : GameState) (h0 : EmptyLeaguePools s0)
    (cmds : List IssuedCommand) :
    (∀ (i : Nat) (lt : LeagueTable),
      (runCommands s0 cmds).league_table_pool.GetIfValid i = some lt → lt.index = i) ∧
    (∀ (i : Nat) (lte : LeagueTableElement),
      (runCommands s0 cmds).league_table_element_pool.GetIfValid i = some lte →
        lte.index = i) ∧
    (∀ (i j : Nat) (a b : LeagueTable),
      (runCommands s0 cmds).league_table_pool.GetIfValid i = some a →
      (runCommands s0 cmds).league_table_pool.GetIfValid j = some b →
      a.index = b.index → i = j) ∧
    (∀ (i j : Nat) (a b : LeagueTableElement),
      (runCommands s0 cmds).league_table_element_pool.GetIfValid i = some a →
      (runCommands s0 cmds).league_table_element_pool.GetIfValid j = some b →
      a.index = b.index → i = j) ∧
    (∀ (authority : CompanyID) (flags : DoCommandFlags) (title header footer : EncodedString),
      flags.Test DoCommandFlag.Execute = true →
      (CmdCreateLeagueTable { runCommands s0 cmds with current_company := authority } flags
        title header footer).1.1.Succeeded = true →
      (runCommands s0 cmds).league_table_pool.IsValidID
        (CmdCreateLeagueTable { runCommands s0 cmds with current_company := authority } flags
          title header footer).1.2 = false) ∧
    (∀ (authority : CompanyID) (flags : DoCommandFlags) (table : LeagueTableID) (rating : Int)
      (company : CompanyID) (text score : EncodedString) (link_type : LinkType)
      (link_target : LinkTargetID),
      flags.Test DoCommandFlag.Execute = true →
      (CmdCreateLeagueTableElement { runCommands s0 cmds with current_company := authority }
        flags table rating company text score link_type link_target).1.1.Succeeded = true →
      (runCommands s0 cmds).league_table_element_pool.IsValidID
        (CmdCreateLeagueTableElement { runCommands s0 cmds with current_company := authority }
          flags table rating company text score link_type link_target).1.2 = false) := by
  obtain ⟨ht, he, -, -⟩ := LeagueInvariant_runCommands cmds s0 (LeagueInvariant_empty s0 h0)
  refine ⟨ht, he, fun i j a b hi hj hab => ?_, fun i j a b hi hj hab => ?_,
    fun authority flags title header footer hf hs => ?_,
    fun authority flags table rating company text score link_type link_target hf hs => ?_⟩
  · rw [← ht i a hi, ← ht j b hj, hab]
  · rw [← he i a hi, ← he j b hj, hab]
  · rw [CmdCreateLeagueTable_id _ flags title header footer hf hs]
    have hfree := Pool.GetIfValid_FindFirstFree (runCommands s0 cmds).league_table_pool
    simp only [Pool.IsValidID]
    rw [hfree]
    rfl
  · rw [CmdCreateLeagueTableElement_id _ flags table rating company text score
      link_type link_target hf hs]
    have hfree := Pool.GetIfValid_FindFirstFree (runCommands s0 cmds).league_table_element_pool
    simp only [Pool.IsValidID]
    rw [hfree]
    rfl

/-- Witness of C15: after the sample sequence on fresh pools the elements 0
and 1 are live, each under its own index. -/
theorem identifiers_unique_witness :
    EmptyLeaguePools (GameState.fresh 1 2) ∧
    ((runCommands (GameState.fresh 1 2) sampleRun).league_table_element_pool.slots.map
      (Option.map LeagueTableElement.index) = [some 0, some 1]) ∧
    (∀ (i : Nat) (lte : LeagueTableElement),
      (runCommands (GameState.fresh 1 2) sampleRun).league_table_element_pool.GetIfValid i =
        some lte → lte.index = i) :=
  ⟨by decide, by decide, (identifiers_unique (GameState.fresh 1 2) (by decide) sampleRun).2.1⟩

/-- C16: the population of a pool never exceeds its limit.  In every state
reached from freshly initialised league pools by a sequence of league
commands, each league pool holds at most as many items as its limit, which is
the limit it started with; and in any state whatsoever `CmdCreateLeagueTable`
and `CmdCreateLeagueTableElement` return `CMD_ERROR` with the Invalid
identifier and the unchanged state, in every mode, when `CanAllocateItem` is
false for their pool. -/
theorem population_within_limit (s0 : GameState) (h0 : EmptyLeaguePools s0)
    (cmds : List IssuedCommand) :
    (runCommands s0 cmds).league_table_pool.items ≤ s0.league_table_pool.limit ∧
    (runCommands s0 cmds).league_table_element_pool.items ≤
      s0.league_table_element_pool.limit ∧
    (runCommands s0 cmds).league_table_pool.limit = s0.league_table_pool.limit ∧
    (runCommands s0 cmds).league_table_element_pool.limit =
      s0.league_table_element_pool.limit ∧
    (∀ (s : GameState) (flags : DoCommandFlags) (title header footer : EncodedString),
      s.league_table_pool.CanAllocateItem = false →
      CmdCreateLeagueTable s flags title header footer =
        ((CMD_ERROR, LeagueTableID.Invalid), s)) ∧
    (∀ (s : GameState) (flags : DoCommandFlags) (table : LeagueTableID) (rating : Int)
      (company : CompanyID) (text score : EncodedString) (link_type : LinkType)
      (link_target : LinkTargetID),
      s.league_table_element_pool.CanAllocateItem = false →
      CmdCreateLeagueTableElement s flags table rating company text score
        link_type link_target = ((CMD_ERROR, LeagueTableElementID.Invalid), s)) := by
  obtain ⟨-, -, hbt, hbe⟩ := LeagueInvariant_runCommands cmds s0 (LeagueInvariant_empty s0 h0)
  obtain ⟨hlt, hle⟩ := runCommands_limits cmds s0
  refine ⟨hlt ▸ hbt, hle ▸ hbe, hlt, hle, fun s flags title header footer hc => ?_,
    fun s flags table rating company text score link_type link_target hc => ?_⟩
  · apply CmdCreateLeagueTable_failed
    cases hs : (CmdCreateLeagueTable s flags title header footer).1.1.Succeeded with
    | false => rfl
    | true =>
      have hv := ((CmdCreateLeagueTable_succeeded s flags title header footer).1 hs).2.1
      rw [hc] at hv
      cases hv
  · apply CmdCreateLeagueTableElement_failed
    cases hs : (CmdCreateLeagueTableElement s flags table rating company text score
      link_type link_target).1.1.Succeeded with
    | false => rfl
    | true =>
      have hv := ((CmdCreateLeagueTableElement_succeeded s flags table rating company text
        score link_type link_target).1 hs).2.1
      rw [hc] at hv
      cases hv

/-- Witness of C16: the sample sequence asks for two tables and four elements
on pools limited to one table and two elements, and ends with one table and
two elements. -/
theorem population_within_limit_witness :
    EmptyLeaguePools (GameState.fresh 1 2) ∧
    (runCommands (GameState.fresh 1 2) sampleRun).league_table_pool.items = 1 ∧
    (runCommands (GameState.fresh 1 2) sampleRun).league_table_element_pool.items = 2 ∧
    (runCommands (GameState.fresh 1 2) sampleRun).league_table_element_pool.items ≤
      (GameState.fresh 1 2).league_table_element_pool.limit :=
  ⟨by decide, by decide, by decide,
    (population_within_limit (GameState.fresh 1 2) (by decide) sampleRun).2.1⟩

/-! ## Results of the create commands -/

/-- C17: the identifier returned by the two create commands, for pools whose
limit does not exceed the Invalid sentinel of their identifier type.  On every
failure, and on success in Validate mode, the identifier is Invalid and the
state is as before.  On success in Execute mode the identifier lies below the
limit and is not Invalid, it was free before and resolves afterwards to the
entity built from exactly the given parameters, the population of the pool has
grown by exactly one, every other identifier resolves as before, and the other
league pool is as before. -/
theorem create_results (s : GameState) (flags : DoCommandFlags)
    (hlt : s.league_table_pool.limit ≤ LeagueTableID.Invalid)
    (hle : s.league_table_element_pool.limit ≤ LeagueTableElementID.Invalid) :
    (∀ title header footer : EncodedString,
      ((CmdCreateLeagueTable s flags title header footer).1.1.Succeeded = false →
        CmdCreateLeagueTable s flags title header footer =
          ((CMD_ERROR, LeagueTableID.Invalid), s)) ∧
      ((CmdCreateLeagueTable s flags title header footer).1.1.Succeeded = true →
        flags.Test DoCommandFlag.Execute = false →
        CmdCreateLeagueTable s flags title header footer =
          ((CommandCost.zero, LeagueTableID.Invalid), s)) ∧
      ((CmdCreateLeagueTable s flags title header footer).1.1.Succeeded = true →
        flags.Test DoCommandFlag.Execute = true →
        (CmdCreateLeagueTable s flags title header footer).1.2 ≠ LeagueTableID.Invalid ∧
        (CmdCreateLeagueTable s flags title header footer).1.2 < s.league_table_pool.limit ∧
        s.league_table_pool.GetIfValid
          (CmdCreateLeagueTable s flags title header footer).1.2 = none ∧
        (CmdCreateLeagueTable s flags title header footer).2.league_table_pool.GetIfValid
          (CmdCreateLeagueTable s flags title header footer).1.2 =
          some ⟨(CmdCreateLeagueTable s flags title header footer).1.2, title, header, footer⟩ ∧
        (CmdCreateLeagueTable s flags title header footer).2.league_table_pool.items =
          s.league_table_pool.items + 1 ∧
        (∀ other : LeagueTableID,
          other ≠ (CmdCreateLeagueTable s flags title header footer).1.2 →
          (CmdCreateLeagueTable s flags title header footer).2.league_table_pool.GetIfValid
            other = s.league_table_pool.GetIfValid other) ∧
        (CmdCreateLeagueTable s flags title header footer).2.league_table_element_pool =
          s.league_table_element_pool)) ∧
    (∀ (table : LeagueTableID) (rating : Int) (company : CompanyID)
      (text score : EncodedString) (link_type : LinkType) (link_target : LinkTargetID),
      ((CmdCreateLeagueTableElement s flags table rating company text score
          link_type link_target).1.1.Succeeded = false →
        CmdCreateLeagueTableElement s flags table rating company text score
          link_type link_target = ((CMD_ERROR, LeagueTableElementID.Invalid), s)) ∧
      ((CmdCreateLeagueTableElement s flags table rating company text score
          link_type link_target).1.1.Succeeded = true →
        flags.Test DoCommandFlag.Execute = false →
        CmdCreateLeagueTableElement s flags table rating company text score
          link_type link_target = ((CommandCost.zero, LeagueTableElementID.Invalid), s)) ∧
      ((CmdCreateLeagueTableElement s flags table rating company text score
          link_type link_target).1.1.Succeeded = true →
        flags.Test DoCommandFlag.Execute = true →
        (CmdCreateLeagueTableElement s flags table rating company text score
          link_type link_target).1.2 ≠ LeagueTableElementID.Invalid ∧
        (CmdCreateLeagueTableElement s flags table rating company text score
          link_type link_target).1.2 < s.league_table_element_pool.limit ∧
        s.league_table_element_pool.GetIfValid
          (CmdCreateLeagueTableElement s flags table rating company text score
            link_type link_target).1.2 = none ∧
        (CmdCreateLeagueTableElement s flags table rating company text score
          link_type link_target).2.league_table_element_pool.GetIfValid
          (CmdCreateLeagueTableElement s flags table rating company text score
            link_type link_target).1.2 =
          some ⟨(CmdCreateLeagueTableElement s flags table rating company text score
            link_type link_target).1.2, table, rating, company, text, score,
            ⟨link_type, link_target⟩⟩ ∧
        (CmdCreateLeagueTableElement s flags table rating company text score
          link_type link_target).2.league_table_element_pool.items =
          s.league_table_element_pool.items + 1 ∧
        (∀ other : LeagueTableElementID,
          other ≠ (CmdCreateLeagueTableElement s flags table rating company text score
            link_type link_target).1.2 →
          (CmdCreateLeagueTableElement s flags table rating company text score
            link_type link_target).2.league_table_element_pool.GetIfValid other =
            s.league_table_element_pool.GetIfValid other) ∧
        (CmdCreateLeagueTableElement s flags table rating company text score
          link_type link_target).2.league_table_pool = s.league_table_pool)) := by
  refine ⟨fun title header footer => ⟨CmdCreateLeagueTable_failed s flags title header footer,
      fun hs hf => CmdCreateLeagueTable_validate s flags title header footer hf hs,
      fun hs hf => ?_⟩,
    fun table rating company text score link_type link_target =>
      ⟨CmdCreateLeagueTableElement_failed s flags table rating company text score
        link_type link_target,
      fun hs hf => CmdCreateLeagueTableElement_validate s flags table rating company text
        score link_type link_target hf hs,
      fun hs hf => ?_⟩⟩
  · have hc := ((CmdCreateLeagueTable_succeeded s flags title header footer).1 hs).2.1
    have hlim := Pool.FindFirstFree_lt_limit s.league_table_pool hc
    rw [CmdCreateLeagueTable_id s flags title header footer hf hs,
      CmdCreateLeagueTable_execute s flags title header footer hf hs]
    exact ⟨Nat.ne_of_lt (Nat.lt_of_lt_of_le hlim hlt), hlim, Pool.GetIfValid_FindFirstFree _,
      (Pool.GetIfValid_New s.league_table_pool _).1, Pool.items_New _ _,
      fun other ho => Pool.GetIfValid_New_ne _ _ other ho, rfl⟩
  · have hc := ((CmdCreateLeagueTableElement_succeeded s flags table rating company text
      score link_type link_target).1 hs).2.1
    have hlim := Pool.FindFirstFree_lt_limit s.league_table_element_pool hc
    rw [CmdCreateLeagueTableElement_id s flags table rating company text score
      link_type link_target hf hs,
      CmdCreateLeagueTableElement_execute s flags table rating company text score
        link_type link_target hf hs]
    exact ⟨Nat.ne_of_lt (Nat.lt_of_lt_of_le hlim hle), hlim, Pool.GetIfValid_FindFirstFree _,
      (Pool.GetIfValid_New s.league_table_element_pool _).1, Pool.items_New _ _,
      fun other ho => Pool.GetIfValid_New_ne _ _ other ho, rfl⟩

/-- Witness of C17: a second element is created in the sample state and gets
the identifier 1; without the Execute flag the identifier is Invalid. -/
theorem create_results_witness :
    GameState.sample.league_table_pool.limit ≤ LeagueTableID.Invalid ∧
    GameState.sample.league_table_element_pool.limit ≤ LeagueTableElementID.Invalid ∧
    (CmdCreateLeagueTableElement GameState.sample execFlags 0 7 CompanyID.Invalid (txt "a")
      (txt "7") LinkType.LT_NONE 0).1 = (CommandCost.zero, 1) ∧
    (CmdCreateLeagueTableElement GameState.sample testFlags 0 7 CompanyID.Invalid (txt "a")
      (txt "7") LinkType.LT_NONE 0).1 = (CommandCost.zero, LeagueTableElementID.Invalid) ∧
    (CmdCreateLeagueTableElement GameState.sample execFlags 0 7 CompanyID.Invalid (txt "a")
      (txt "7") LinkType.LT_NONE 0).2.league_table_element_pool.items =
      GameState.sample.league_table_element_pool.items + 1 :=
  ⟨by decide, by decide, by decide, by decide,
    (((create_results GameState.sample execFlags (by decide) (by decide)).2 0 7
      CompanyID.Invalid (txt "a") (txt "7") LinkType.LT_NONE 0).2.2
      (by decide) (by decide)).2.2.2.2.1⟩

/-! ## The aggregate handed to the sink -/

/-- C18: on success in Execute mode the element commands notify the sink with
the owning table, not with the element.  `CmdCreateLeagueTableElement` adds
`(WC_COMPANY_LEAGUE, table)` for its table parameter; the two update commands
add `(WC_COMPANY_LEAGUE, t)` where `t` is the table the element held before
and still holds after the update; `CmdRemoveLeagueTableElement` adds
`(WC_COMPANY_LEAGUE, t)` for the table the element held right before it was
destroyed. -/
theorem sink_notified_with_owning_table (s : GameState) (flags : DoCommandFlags)
    (hf : flags.Test DoCommandFlag.Execute = true) :
    (∀ (table : LeagueTableID) (rating : Int) (company : CompanyID)
      (text score : EncodedString) (link_type : LinkType) (link_target : LinkTargetID),
      (CmdCreateLeagueTableElement s flags table rating company text score
        link_type link_target).1.1.Succeeded = true →
      (CmdCreateLeagueTableElement s flags table rating company text score
        link_type link_target).2.invalidations =
        s.invalidations ++ [(WindowClass.WC_COMPANY_LEAGUE, table)]) ∧
    (∀ (element : LeagueTableElementID) (company : CompanyID) (text : EncodedString)
      (link_type : LinkType) (link_target : LinkTargetID),
      (CmdUpdateLeagueTableElementData s flags element company text
        link_type link_target).1.Succeeded = true →
      ∃ before after : LeagueTableElement,
        s.league_table_element_pool.GetIfValid element = some before ∧
        (CmdUpdateLeagueTableElementData s flags element company text
          link_type link_target).2.league_table_element_pool.GetIfValid element =
          some after ∧
        after.table = before.table ∧
        (CmdUpdateLeagueTableElementData s flags element company text
          link_type link_target).2.invalidations =
          s.invalidations ++ [(WindowClass.WC_COMPANY_LEAGUE, after.table)]) ∧
    (∀ (element : LeagueTableElementID) (rating : Int) (score : EncodedString),
      (CmdUpdateLeagueTableElementScore s flags element rating score).1.Succeeded = true →
      ∃ before after : LeagueTableElement,
        s.league_table_element_pool.GetIfValid element = some before ∧
        (CmdUpdateLeagueTableElementScore s flags element rating
          score).2.league_table_element_pool.GetIfValid element = some after ∧
        after.table = before.table ∧
        (CmdUpdateLeagueTableElementScore s flags element rating score).2.invalidations =
          s.invalidations ++ [(WindowClass.WC_COMPANY_LEAGUE, after.table)]) ∧
    (∀ element : LeagueTableElementID,
      (CmdRemoveLeagueTableElement s flags element).1.Succeeded = true →
      ∃ before : LeagueTableElement,
        s.league_table_element_pool.GetIfValid element = some before ∧
        (CmdRemoveLeagueTableElement s flags element).2.invalidations =
          s.invalidations ++ [(WindowClass.WC_COMPANY_LEAGUE, before.table)]) := by
  refine ⟨fun table rating company text score link_type link_target hs => ?_,
    fun element company text link_type link_target hs => ?_,
    fun element rating score hs => ?_, fun element hs => ?_⟩
  · rw [CmdCreateLeagueTableElement_execute s flags table rating company text score
      link_type link_target hf hs]
  · have hv := ((CmdUpdateLeagueTableElementData_succeeded s flags element company text
      link_type link_target).1 hs).2.1
    obtain ⟨lte, hg⟩ := Option.isSome_iff_exists.1 hv
    rw [CmdUpdateLeagueTableElementData_execute s flags element company text
      link_type link_target lte hg hf hs]
    exact ⟨lte, _, hg, Pool.GetIfValid_Store_self _ element _ lte hg, rfl, rfl⟩
  · have hv := ((CmdUpdateLeagueTableElementScore_succeeded s flags element rating
      score).1 hs).2
    obtain ⟨lte, hg⟩ := Option.isSome_iff_exists.1 hv
    rw [CmdUpdateLeagueTableElementScore_execute s flags element rating score lte hg hf hs]
    exact ⟨lte, _, hg, Pool.GetIfValid_Store_self _ element _ lte hg, rfl, rfl⟩
  · have hv := ((CmdRemoveLeagueTableElement_succeeded s flags element).1 hs).2
    obtain ⟨lte, hg⟩ := Option.isSome_iff_exists.1 hv
    rw [CmdRemoveLeagueTableElement_execute s flags element lte hg hf hs]
    exact ⟨lte, hg, rfl⟩

/-- Witness of C18: element 1 of the state below belongs to table 4; removing
it notifies the sink for 4, not for 1. -/
theorem sink_notified_with_owning_table_witness :
    execFlags.Test DoCommandFlag.Execute = true ∧
    (CmdRemoveLeagueTableElement
      { GameState.sample with
        league_table_element_pool := ⟨3, [some (sampleElement 0 0), some (sampleElement 1 4)]⟩ }
      execFlags 1).2.invalidations = [(WindowClass.WC_COMPANY_LEAGUE, 4)] ∧
    ∃ before : LeagueTableElement,
      ({ GameState.sample with
        league_table_element_pool :=
          ⟨3, [some (sampleElement 0 0), some (sampleElement 1 4)]⟩ } :
        GameState).league_table_element_pool.GetIfValid 1 = some before ∧
      (CmdRemoveLeagueTableElement
        { GameState.sample with
          league_table_element_pool :=
            ⟨3, [some (sampleElement 0 0), some (sampleElement 1 4)]⟩ }
        execFlags 1).2.invalidations =
        ({ GameState.sample with
          league_table_element_pool :=
            ⟨3, [some (sampleElement 0 0), some (sampleElement 1 4)]⟩ } :
          GameState).invalidations ++ [(WindowClass.WC_COMPANY_LEAGUE, before.table)] :=
  ⟨by decide, by decide,
    (sink_notified_with_owning_table
      { GameState.sample with
        league_table_element_pool := ⟨3, [some (sampleElement 0 0), some (sampleElement 1 4)]⟩ }
      execFlags (by decide)).2.2.2 1 (by decide)⟩

/-! ## The company reference -/

/-- C19: the company reference is optional but checked.  A company that is
neither `CompanyID::Invalid()` nor live makes `CmdCreateLeagueTableElement` and
`CmdUpdateLeagueTableElementData` return `CMD_ERROR` with the state unchanged;
with `CompanyID::Invalid()` the two commands succeed exactly when their other
checks pass; and `CmdUpdateLeagueTableElementData` succeeds if and only if the
authority is `OWNER_DEITY`, the element is live, the company is Invalid or
live, and the link is valid. -/
theorem company_optional_but_checked (s : GameState) (flags : DoCommandFlags) :
    (∀ (company : CompanyID), company ≠ CompanyID.Invalid →
      s.company_pool.IsValidID company = false →
      (∀ (table : LeagueTableID) (rating : Int) (text score : EncodedString)
        (link_type : LinkType) (link_target : LinkTargetID),
        CmdCreateLeagueTableElement s flags table rating company text score
          link_type link_target = ((CMD_ERROR, LeagueTableElementID.Invalid), s)) ∧
      (∀ (element : LeagueTableElementID) (text : EncodedString)
        (link_type : LinkType) (link_target : LinkTargetID),
        CmdUpdateLeagueTableElementData s flags element company text
          link_type link_target = (CMD_ERROR, s))) ∧
    (∀ (table : LeagueTableID) (rating : Int) (text score : EncodedString)
      (link_type : LinkType) (link_target : LinkTargetID),
      (CmdCreateLeagueTableElement s flags table rating CompanyID.Invalid text score
        link_type link_target).1.1.Succeeded = true ↔
        (s.current_company = OWNER_DEITY ∧
          s.league_table_element_pool.CanAllocateItem = true ∧
          IsValidLink s ⟨link_type, link_target⟩ = true)) ∧
    (∀ (element : LeagueTableElementID) (text : EncodedString)
      (link_type : LinkType) (link_target : LinkTargetID),
      (CmdUpdateLeagueTableElementData s flags element CompanyID.Invalid text
        link_type link_target).1.Succeeded = true ↔
        (s.current_company = OWNER_DEITY ∧
          s.league_table_element_pool.IsValidID element = true ∧
          IsValidLink s ⟨link_type, link_target⟩ = true)) ∧
    (∀ (element : LeagueTableElementID) (company : CompanyID) (text : EncodedString)
      (link_type : LinkType) (link_target : LinkTargetID),
      (CmdUpdateLeagueTableElementData s flags element company text
        link_type link_target).1.Succeeded = true ↔
        (s.current_company = OWNER_DEITY ∧
          s.league_table_element_pool.IsValidID element = true ∧
          (company = CompanyID.Invalid ∨ s.company_pool.IsValidID company = true) ∧
          IsValidLink s ⟨link_type, link_target⟩ = true)) := by
  refine ⟨fun company hc hv => ⟨fun table rating text score link_type link_target => ?_,
      fun element text link_type link_target => ?_⟩,
    fun table rating text score link_type link_target => ?_,
    fun element text link_type link_target => ?_,
    fun element company text link_type link_target =>
      CmdUpdateLeagueTableElementData_succeeded s flags element company text
        link_type link_target⟩
  · apply CmdCreateLeagueTableElement_failed
    cases hs : (CmdCreateLeagueTableElement s flags table rating company text score
      link_type link_target).1.1.Succeeded with
    | false => rfl
    | true =>
      rcases ((CmdCreateLeagueTableElement_succeeded s flags table rating company text
        score link_type link_target).1 hs).2.2.2 with h | h
      · exact absurd h hc
      · rw [hv] at h
        cases h
  · apply CmdUpdateLeagueTableElementData_failed
    cases hs : (CmdUpdateLeagueTableElementData s flags element company text
      link_type link_target).1.Succeeded with
    | false => rfl
    | true =>
      rcases ((CmdUpdateLeagueTableElementData_succeeded s flags element company text
        link_type link_target).1 hs).2.2.1 with h | h
      · exact absurd h hc
      · rw [hv] at h
        cases h
  · rw [CmdCreateLeagueTableElement_succeeded]
    simp
  · rw [CmdUpdateLeagueTableElementData_succeeded]
    simp [Pool.IsValidID]

/-- Witness of C19: the sample state has no company 3; an update naming it is
rejected, the same update without a company succeeds. -/
theorem company_optional_but_checked_witness :
    (3 : CompanyID) ≠ CompanyID.Invalid ∧
    GameState.sample.company_pool.IsValidID 3 = false ∧
    (CmdUpdateLeagueTableElementData GameState.sample execFlags 0 CompanyID.Invalid (txt "a")
      LinkType.LT_NONE 0).1.Succeeded = true ∧
    CmdUpdateLeagueTableElementData GameState.sample execFlags 0 3 (txt "a")
      LinkType.LT_NONE 0 = (CMD_ERROR, GameState.sample) :=
  ⟨by decide, by decide, by decide,
    ((company_optional_but_checked GameState.sample execFlags).1 3 (by decide)
      (by decide)).2 0 (txt "a") LinkType.LT_NONE 0⟩

/-! ## Updating the data of an element -/

/-- Writing a slot twice leaves the second item. -/
theorem Pool.Store_Store {α : Type} (p : Pool α) (index : Nat) (a b : α) :
    (p.Store index a).Store index b = p.Store index b := by
  simp [Pool.Store, List.set_set]

/-- Writing two different slots in either order gives the same pool. -/
theorem Pool.Store_comm {α : Type} (p : Pool α) (i j : Nat) (a b : α) (h : i ≠ j) :
    (p.Store i a).Store j b = (p.Store j b).Store i a := by
  simp [Pool.Store, List.set_comm _ _ _ h]

/-- C20: a successful Execute mode `CmdUpdateLeagueTableElementData` sets the
company, the text and the link of the element to the given values and nothing
else: the element keeps its index, table, rating and score, every other
element slot and the LeagueTable pool are as before, and so are both
populations.  Hence the data update commutes with a score update: followed by
a successful score update of any element, or following it, both commands
succeed and both league pools end the same; for a score update of the same
element the two orders end in the same state altogether, sink included. -/
theorem data_update_touches_company_text_link (s : GameState) (flags : DoCommandFlags)
    (element : LeagueTableElementID) (company : CompanyID) (text : EncodedString)
    (link_type : LinkType) (link_target : LinkTargetID)
    (hf : flags.Test DoCommandFlag.Execute = true)
    (hs : (CmdUpdateLeagueTableElementData s flags element company text
      link_type link_target).1.Succeeded = true) :
    (∃ lte : LeagueTableElement,
      s.league_table_element_pool.GetIfValid element = some lte ∧
      (CmdUpdateLeagueTableElementData s flags element company text
        link_type link_target).2.league_table_element_pool.GetIfValid element =
        some ⟨lte.index, lte.table, lte.rating, company, text, lte.score,
          ⟨link_type, link_target⟩⟩) ∧
    (∀ other : LeagueTableElementID, other ≠ element →
      (CmdUpdateLeagueTableElementData s flags element company text
        link_type link_target).2.league_table_element_pool.GetIfValid other =
        s.league_table_element_pool.GetIfValid other) ∧
    (CmdUpdateLeagueTableElementData s flags element company text
      link_type link_target).2.league_table_pool = s.league_table_pool ∧
    (CmdUpdateLeagueTableElementData s flags element company text
      link_type link_target).2.league_table_element_pool.items =
      s.league_table_element_pool.items ∧
    (∀ (scored : LeagueTableElementID) (rating : Int) (score : EncodedString),
      (CmdUpdateLeagueTableElementScore s flags scored rating score).1.Succeeded = true →
      (CmdUpdateLeagueTableElementScore
        (CmdUpdateLeagueTableElementData s flags element company text
          link_type link_target).2 flags scored rating score).1.Succeeded = true ∧
      (CmdUpdateLeagueTableElementData
        (CmdUpdateLeagueTableElementScore s flags scored rating score).2
        flags element company text link_type link_target).1.Succeeded = true ∧
      (CmdUpdateLeagueTableElementScore
        (CmdUpdateLeagueTableElementData s flags element company text
          link_type link_target).2 flags scored rating score).2.league_table_element_pool =
        (CmdUpdateLeagueTableElementData
          (CmdUpdateLeagueTableElementScore s flags scored rating score).2
          flags element company text link_type link_target).2.league_table_element_pool ∧
      (CmdUpdateLeagueTableElementScore
        (CmdUpdateLeagueTableElementData s flags element company text
          link_type link_target).2 flags scored rating score).2.league_table_pool =
        (CmdUpdateLeagueTableElementData
          (CmdUpdateLeagueTableElementScore s flags scored rating score).2
          flags element company text link_type link_target).2.league_table_pool ∧
      (scored = element →
        (CmdUpdateLeagueTableElementScore
          (CmdUpdateLeagueTableElementData s flags element company text
            link_type link_target).2 flags scored rating score).2 =
          (CmdUpdateLeagueTableElementData
            (CmdUpdateLeagueTableElementScore s flags scored rating score).2
            flags element company text link_type link_target).2)) := by
  obtain ⟨hd, hv, hco, hl⟩ := (CmdUpdateLeagueTableElementData_succeeded s flags element
    company text link_type link_target).1 hs
  obtain ⟨lte, hg⟩ := Option.isSome_iff_exists.1 hv
  refine ⟨⟨lte, hg, ?_⟩, ?_, ?_, ?_, fun scored rating score hsc => ?_⟩
  · rw [CmdUpdateLeagueTableElementData_execute s flags element company text
      link_type link_target lte hg hf hs]
    exact Pool.GetIfValid_Store_self _ element _ lte hg
  · intro other ho
    rw [CmdUpdateLeagueTableElementData_execute s flags element company text
      link_type link_target lte hg hf hs]
    exact Pool.GetIfValid_Store_ne _ element other _ ho
  · rw [CmdUpdateLeagueTableElementData_execute s flags element company text
      link_type link_target lte hg hf hs]
  · rw [CmdUpdateLeagueTableElementData_execute s flags element company text
      link_type link_target lte hg hf hs]
    exact Pool.items_Store _ element _ lte hg
  · have hv2 := ((CmdUpdateLeagueTableElementScore_succeeded s flags scored rating
      score).1 hsc).2
    obtain ⟨lts, hgs⟩ := Option.isSome_iff_exists.1 hv2
    rw [CmdUpdateLeagueTableElementData_execute s flags element company text
      link_type link_target lte hg hf hs,
      CmdUpdateLeagueTableElementScore_execute s flags scored rating score lts hgs hf hsc]
    by_cases hsame : scored = element
    · subst hsame
      have hll : lts = lte := Option.some.inj (hgs.symm.trans hg)
      subst hll
      have hg1 := Pool.GetIfValid_Store_self s.league_table_element_pool scored
        { lts with company := company, text := text, link := ⟨link_type, link_target⟩ } lts hg
      have hg2 := Pool.GetIfValid_Store_self s.league_table_element_pool scored
        { lts with rating := rating, score := score } lts hg
      have h1 := (CmdUpdateLeagueTableElementScore_succeeded
        { s with
          league_table_element_pool := s.league_table_element_pool.Store scored
            { lts with company := company, text := text, link := ⟨link_type, link_target⟩ }
          invalidations := s.invalidations ++ [(WindowClass.WC_COMPANY_LEAGUE, lts.table)] }
        flags scored rating score).2 ⟨hd, by rw [hg1]; rfl⟩
      have h2 := (CmdUpdateLeagueTableElementData_succeeded
        { s with
          league_table_element_pool := s.league_table_element_pool.Store scored
            { lts with rating := rating, score := score }
          invalidations := s.invalidations ++ [(WindowClass.WC_COMPANY_LEAGUE, lts.table)] }
        flags scored company text link_type link_target).2
        ⟨hd, by rw [hg2]; rfl, hco, hl⟩
      refine ⟨h1, h2, ?_⟩
      rw [CmdUpdateLeagueTableElementScore_execute _ flags scored rating score _ hg1 hf h1,
        CmdUpdateLeagueTableElementData_execute _ flags scored company text
          link_type link_target _ hg2 hf h2]
      simp [Pool.Store_Store]
    · have hne : element ≠ scored := fun h => hsame h.symm
      have hg1 : (s.league_table_element_pool.Store element
          (LeagueTableElement.mk lte.index lte.table lte.rating company text lte.score
            ⟨link_type, link_target⟩)).GetIfValid scored = some lts := by
        rw [Pool.GetIfValid_Store_ne _ element scored _ hsame]
        exact hgs
      have hg2 : (s.league_table_element_pool.Store scored
          (LeagueTableElement.mk lts.index lts.table rating lts.company lts.text score
            lts.link)).GetIfValid element = some lte := by
        rw [Pool.GetIfValid_Store_ne _ scored element _ hne]
        exact hg
      have h1 := (CmdUpdateLeagueTableElementScore_succeeded
        { s with
          league_table_element_pool := s.league_table_element_pool.Store element
            { lte with company := company, text := text, link := ⟨link_type, link_target⟩ }
          invalidations := s.invalidations ++ [(WindowClass.WC_COMPANY_LEAGUE, lte.table)] }
        flags scored rating score).2 ⟨hd, by rw [hg1]; rfl⟩
      have h2 := (CmdUpdateLeagueTableElementData_succeeded
        { s with
          league_table_element_pool := s.league_table_element_pool.Store scored
            { lts with rating := rating, score := score }
          invalidations := s.invalidations ++ [(WindowClass.WC_COMPANY_LEAGUE, lts.table)] }
        flags element company text link_type link_target).2
        ⟨hd, by rw [hg2]; rfl, hco, hl⟩
      refine ⟨h1, h2, ?_⟩
      rw [CmdUpdateLeagueTableElementScore_execute _ flags scored rating score _ hg1 hf h1,
        CmdUpdateLeagueTableElementData_execute _ flags element company text
          link_type link_target _ hg2 hf h2]
      exact ⟨Pool.Store_comm _ element scored _ _ hne, rfl, fun h => absurd h hsame⟩

/-- Witness of C20: the data of element 0 of the populated state is replaced,
with a link to town 0. -/
theorem data_update_touches_company_text_link_witness :
    execFlags.Test DoCommandFlag.Execute = true ∧
    (CmdUpdateLeagueTableElementData GameState.populated execFlags 0 CompanyID.Invalid
      (txt "new") LinkType.LT_TOWN 0).1.Succeeded = true ∧
    (CmdUpdateLeagueTableElementData GameState.populated execFlags 0 CompanyID.Invalid
      (txt "new") LinkType.LT_TOWN 0).2.league_table_element_pool.items =
      GameState.populated.league_table_element_pool.items ∧
    (CmdUpdateLeagueTableElementData GameState.populated execFlags 0 CompanyID.Invalid
      (txt "new") LinkType.LT_TOWN 0).2.league_table_element_pool.slots =
      [some ⟨0, 0, 100, CompanyID.Invalid, txt "new", txt "100", ⟨LinkType.LT_TOWN, 0⟩⟩] :=
  ⟨by decide, by decide,
    (data_update_touches_company_text_link GameState.populated execFlags 0 CompanyID.Invalid
      (txt "new") LinkType.LT_TOWN 0 (by decide) (by decide)).2.2.2.1,
    by decide⟩

end OpenTTD
